import Mathlib

/-! The program `daytime.c`, an RFC 867 service.

A shallow embedding of `daytime.c`.  Every C function of the file becomes a Lean
function of the same name that transforms an explicit process state `Proc`
(the global `active`, the heap block `*cfg`, the installed signal handlers, the
trace of system calls made so far and the exit status).  The answers of the
operating system (return values, `errno`, the clock) are inputs of the model.

Values that come from system headers (`errno` codes, socket constants, exit
codes, byte-order conversion) and the two library functions whose result depends
on the platform (`ctime`, `inet_aton`) are fields of `Libc`, so that the theorems
hold for every platform.  `snprintf`, `strlen`, `sscanf` and `getopt_long` are
modelled as their manual pages describe them for the arguments this program
passes.
-/

namespace Daytime

/-! ## Constants of `daytime.c` -/

/-- The macro `TCP` (line 18). -/
def TCP : Int := 1

/-- The macro `UDP` (line 19). -/
def UDP : Int := 2

/-- The macro `PROTO` (line 21). -/
def PROTO : Int := TCP

/-- The macro `PORT` (line 22). -/
def PORT : Nat := 13

/-- The macro `BACKLOG` (line 23). -/
def BACKLOG : Int := 256

/-- The macro `MSGLENGTH` (line 25). -/
def MSGLENGTH : Nat := 27

/-! ## The platform -/

/-- What the system headers and the C library contribute. -/
structure Libc where
  EXIT_SUCCESS : Int
  EXIT_FAILURE : Int
  SIGINT : Int
  SIGTERM : Int
  EWOULDBLOCK : Int
  EAGAIN : Int
  AF_INET : Int
  PF_INET : Int
  SOCK_STREAM : Int
  SOCK_DGRAM : Int
  SOL_SOCKET : Int
  SO_REUSEADDR : Int
  F_GETFL : Int
  F_SETFL : Int
  O_NONBLOCK : Int
  INADDR_ANY : Nat
  /-- Host to network byte order, 32 bit. -/
  htonl : Nat → Nat
  /-- Host to network byte order, 16 bit. -/
  htons : Nat → Nat
  /-- The bytes at the pointer `ctime(&t)` returns, `none` for a null pointer. -/
  ctime : Int → Option (List Char)
  /-- The address `inet_aton` stores for a text it accepts (return value non-zero),
  `none` when it returns 0. -/
  inet_aton : List Char → Option Nat

/-! ## C strings -/

/-- The characters of the C string that starts at the first byte of `mem`:
everything before the first NUL. -/
def cstr (mem : List Char) : List Char :=
  mem.takeWhile (fun c => c ≠ '\x00')

/-- The function `strlen`. -/
def strlen (mem : List Char) : Nat :=
  (cstr mem).length

/-- The conversion `%.24s` (precision `prec`): at most `prec` characters of the
argument string.  For a null pointer glibc prints `(null)` when the precision
allows six characters and nothing otherwise. -/
def fmt_s (prec : Nat) (arg : Option (List Char)) : List Char :=
  match arg with
  | some mem => (cstr mem).take prec
  | none => if 6 ≤ prec then "(null)".toList else []

/-- The bytes `snprintf(buffer, size, ...)` stores when the complete formatted
output is `out`: at most `size - 1` characters and a terminating NUL. -/
def snprintf (size : Nat) (out : List Char) : List Char :=
  if size = 0 then [] else out.take (size - 1) ++ ['\x00']

/-! ## Process state -/

/-- The fields of `struct sockaddr_in` the program sets. -/
structure sockaddr_in where
  sin_family : Int
  sin_port : Nat
  sin_addr : Nat
deriving DecidableEq, Repr

/-- The settings of a daytime service, `struct srvcfg` (lines 40-46). -/
structure srvcfg where
  proto : Int
  port : Nat
  server_ip : Nat
  server_addr : sockaddr_in
  sockfd : Int
deriving DecidableEq, Repr

/-- One observable action of the process.  The arguments of the `printf` calls
behind `LOG` (the peer address) are not recorded, only the format. -/
inductive Event where
  | stdout (fmt : String)
  | stderr (func : String) (str : String)
  | kill (pid sig : Int)
  | sigaction (sig : Int)
  | socket (domain type protocol : Int)
  | setsockopt (fd level optname optval : Int)
  | bind (fd : Int) (addr : sockaddr_in)
  | listen (fd backlog : Int)
  | fcntl (fd cmd arg : Int)
  | accept (fd : Int)
  | time
  | read (fd : Int)
  | write (fd : Int) (bytes : List Char)
  | close (fd : Int)
  | free
deriving DecidableEq, Repr

/-- How far the process has come. -/
inductive Status where
  | running
  | exited (code : Int)
  | killed (sig : Int)
deriving DecidableEq, Repr

/-- The state of the process. -/
structure Proc where
  /-- The global `volatile sig_atomic_t active` (line 35). -/
  active : Int
  /-- Whether `exiting` is the disposition of SIGINT. -/
  on_sigint : Bool
  /-- Whether `exiting` is the disposition of SIGTERM. -/
  on_sigterm : Bool
  /-- The block `cfg` points to. -/
  cfg : srvcfg
  /-- The system calls and outputs so far, oldest first. -/
  trace : List Event
  status : Status
deriving DecidableEq, Repr

/-- Append one event to the trace. -/
def Proc.emit (p : Proc) (e : Event) : Proc :=
  { p with trace := p.trace ++ [e] }

/-- The signal handler `exiting` (lines 114-117). -/
def exiting (_sig : Int) (p : Proc) : Proc :=
  { p with active := 0 }

/-- The macro `ERROR` (lines 30-31) used in function `func`: the diagnostic on
stderr, `kill(0, SIGTERM)`, which also reaches this process and runs `exiting`
when that is the installed disposition (the default disposition ends the process
there), and `exit(EXIT_FAILURE)`. -/
def ERROR (L : Libc) (func : String) (str : String) (p : Proc) : Proc :=
  let p := p.emit (.stderr func str)
  let p := p.emit (.kill 0 L.SIGTERM)
  if p.on_sigterm then
    { exiting L.SIGTERM p with status := .exited L.EXIT_FAILURE }
  else
    { p with status := .killed L.SIGTERM }

/-- The macro `LOG` (line 33). -/
def LOG (fmt : String) (p : Proc) : Proc :=
  p.emit (.stdout fmt)

/-! ## `sending_datetime` -/

/-- The content of `buffer` after the `snprintf` of line 262 for clock value
`curr_time`. -/
def datetime_buffer (L : Libc) (curr_time : Int) : List Char :=
  snprintf MSGLENGTH (fmt_s 24 (L.ctime curr_time) ++ ['\r', '\n'])

/-- The bytes `write(fd, buffer, strlen(buffer))` of line 264 hands over. -/
def datetime_message (L : Libc) (curr_time : Int) : List Char :=
  (datetime_buffer L curr_time).take (strlen (datetime_buffer L curr_time))

/-- The function `sending_datetime` (lines 252-265).  `now` is what `time(NULL)`
returns and `write_ret` what `write` returns; the result is the returned value
and the new state. -/
def sending_datetime (L : Libc) (now : Int) (write_ret : Int) (fd : Int) (p : Proc) :
    Int × Proc :=
  let p := p.emit .time
  let curr_time := now
  let buffer := datetime_buffer L curr_time
  let p := p.emit (.write fd (buffer.take (strlen buffer)))
  (write_ret, p)

/-! ## Command line -/

/-- One return of `getopt_long` other than -1: the returned character and
`optarg` (empty for an option without argument). -/
structure Opt where
  ret : Char
  optarg : List Char
deriving DecidableEq, Repr

/-- The array `optstring` of line 161. -/
def optstring : List Char := "i:tup:h".toList

/-- One entry of `struct option`: name, whether `required_argument`, and `val`. -/
structure option where
  name : List Char
  has_arg : Bool
  val : Char
deriving DecidableEq, Repr

/-- The array `optslong` of lines 162-168. -/
def optslong : List option :=
  [ ⟨"ip".toList, true, 'i'⟩,
    ⟨"tcp".toList, false, 't'⟩,
    ⟨"port".toList, true, 'p'⟩,
    ⟨"help".toList, false, 'h'⟩ ]

/-- Look a short option letter up in an option string: `none` when it is not an
option letter, otherwise whether a colon follows it. -/
def lookup_short (c : Char) : List Char → Option Bool
  | [] => none
  | o :: rest =>
    if o = c ∧ c ≠ ':' then some (rest.head? = some ':') else lookup_short c rest

/-- What `getopt_long` returns for the letters of one `-abc` element; `next` is
the following element of `argv`, and the flag tells whether it was taken as an
argument. -/
def short_opts (next : Option (List Char)) : List Char → List Opt × Bool
  | [] => ([], false)
  | c :: cs =>
    match lookup_short c optstring with
    | none => (⟨'?', []⟩ :: (short_opts next cs).1, (short_opts next cs).2)
    | some false => (⟨c, []⟩ :: (short_opts next cs).1, (short_opts next cs).2)
    | some true =>
      if cs ≠ [] then ([⟨c, cs⟩], false)
      else
        match next with
        | some a => ([⟨c, a⟩], true)
        | none => ([⟨'?', []⟩], false)

/-- The long option a name denotes: an exact match, or else the only entry the
name abbreviates. -/
def lookup_long (name : List Char) : Option option :=
  match optslong.filter (fun o => o.name = name) with
  | o :: _ => some o
  | [] =>
    match optslong.filter (fun o => name.isPrefixOf o.name) with
    | [o] => some o
    | _ => none

/-- What `getopt_long` returns for one `--name` or `--name=value` element, given
without its two dashes. -/
def long_opt (next : Option (List Char)) (body : List Char) : Opt × Bool :=
  match lookup_long (body.takeWhile (fun c => c ≠ '=')) with
  | none => (⟨'?', []⟩, false)
  | some o =>
    match body.dropWhile (fun c => c ≠ '=') with
    | _ :: value => if o.has_arg then (⟨o.val, value⟩, false) else (⟨'?', []⟩, false)
    | [] =>
      if o.has_arg then
        match next with
        | some a => (⟨o.val, a⟩, true)
        | none => (⟨'?', []⟩, false)
      else (⟨o.val, []⟩, false)

/-- The successive returns of `getopt_long` over the elements after `argv[0]`,
up to the -1 that ends the loop of line 173, in the default mode of glibc:
elements that are no options are passed over, `--` ends the options.  The flag
says that the first element was used up as an argument. -/
def getopt_scan : Bool → List (List Char) → List Opt
  | _, [] => []
  | true, _ :: rest => getopt_scan false rest
  | false, a :: rest =>
    match a with
    | '-' :: '-' :: body =>
      if body = [] then []
      else (long_opt rest.head? body).1 :: getopt_scan (long_opt rest.head? body).2 rest
    | '-' :: c :: cs =>
      (short_opts rest.head? (c :: cs)).1 ++ getopt_scan (short_opts rest.head? (c :: cs)).2 rest
    | _ => getopt_scan false rest

/-- The returns of `getopt_long(argc, argv, optstring, optslong, NULL)` for a
command line. -/
def getopt_long (argv : List (List Char)) : List Opt :=
  getopt_scan false argv.tail

/-- The function `isspace` in the C locale. -/
def isspace (c : Char) : Bool :=
  c = ' ' ∨ c = '\t' ∨ c = '\n' ∨ c = '\x0b' ∨ c = '\x0c' ∨ c = '\r'

/-- The value of a run of decimal digits. -/
def decimal (ds : List Char) : Nat :=
  ds.foldl (fun acc d => acc * 10 + (d.toNat - '0'.toNat)) 0

/-- The call `sscanf(optarg, "%hu", &cfg->port)`: `some v` when it returns 1 and
stores `v`, `none` when it converts nothing.  Blanks are skipped, a sign is
accepted, the digits that follow are converted as `strtoul` does (64-bit
`unsigned long`) and cut to 16 bits; what follows the digits is left unread. -/
def sscanf_hu (s : List Char) : Option Nat :=
  let s := s.dropWhile isspace
  let neg := s.head? = some '-'
  let s := if s.head? = some '-' ∨ s.head? = some '+' then s.tail else s
  let ds := s.takeWhile Char.isDigit
  if ds = [] then none
  else
    let n := decimal ds
    let ul := if 2 ^ 64 ≤ n then 2 ^ 64 - 1 else if neg then (2 ^ 64 - n) % 2 ^ 64 else n
    some (ul % 2 ^ 16)

/-- The text `print_usage` writes. -/
def usage_text : String :=
  "Implementation of the RFC 867 Daytime protocol\n" ++
  "Usage: daytime [OPTIONS] \n" ++
  "\n" ++
  "Options:\n" ++
  "  -i, --ip IP     listening IP (default all)\n" ++
  "  -t, --tcp       TCP service (default)\n" ++
  "  -p, --port NUM  port number (default 13)\n" ++
  "  -h, --help      display this help message\n"

/-- The function `print_usage` (lines 136-150): `puts` and `exit(EXIT_SUCCESS)`. -/
def print_usage (L : Libc) (p : Proc) : Proc :=
  { p.emit (.stdout usage_text) with status := .exited L.EXIT_SUCCESS }

/-- The `switch` of lines 175-193 for one return of `getopt_long`. -/
def parse_switch (L : Libc) (o : Opt) (p : Proc) : Proc :=
  if o.ret = 'i' then
    match L.inet_aton o.optarg with
    | some a => { p with cfg := { p.cfg with server_ip := a } }
    | none => { p with cfg := { p.cfg with server_ip := L.htonl L.INADDR_ANY } }
  else if o.ret = 't' then
    if p.cfg.proto = UDP then print_usage L p
    else { p with cfg := { p.cfg with proto := TCP } }
  else if o.ret = 'p' then
    match sscanf_hu o.optarg with
    | some v => { p with cfg := { p.cfg with port := v } }
    | none => print_usage L p
  else print_usage L p

/-- The `while` loop of lines 173-194 over the returns of `getopt_long`; it ends
with the process when `print_usage` is reached. -/
def parse_loop (L : Libc) : List Opt → Proc → Proc
  | [], p => p
  | o :: rest, p =>
    if (parse_switch L o p).status = .running then parse_loop L rest (parse_switch L o p)
    else parse_switch L o p

/-- The function `parse_arguments` (lines 155-195). -/
def parse_arguments (L : Libc) (argv : List (List Char)) (p : Proc) : Proc :=
  let p := { p with cfg := { p.cfg with port := PORT } }
  let p := { p with cfg := { p.cfg with proto := TCP } }
  parse_loop L (getopt_long argv) p

/-! ## Start-up -/

/-- The answers of the system to the calls made before the service loop. -/
structure StartEnv where
  /-- What `malloc` returns: `none` for NULL, otherwise the content the fresh
  block happens to have (`malloc` does not initialise it). -/
  malloc : Option srvcfg
  sigaction_int : Int
  sigaction_term : Int
  socket_ret : Int
  setsockopt_ret : Int
  bind_ret : Int
  listen_ret : Int
  /-- The return of `fcntl(sockfd, F_GETFL, 0)`. -/
  getfl_ret : Int
  /-- The return of `fcntl(sockfd, F_SETFL, ...)`. -/
  setfl_ret : Int

/-- The function `set_signal_handler` (lines 122-131). -/
def set_signal_handler (L : Libc) (e : StartEnv) (p : Proc) : Proc :=
  let p := p.emit (.sigaction L.SIGINT)
  if e.sigaction_int = -1 then ERROR L "set_signal_handler" "Error setting signal handling" p
  else
    let p := { p with on_sigint := true }
    let p := p.emit (.sigaction L.SIGTERM)
    if e.sigaction_term = -1 then
      ERROR L "set_signal_handler" "Error setting signal handling" p
    else { p with on_sigterm := true }

/-- The function `create_socket` (lines 223-247): the returned descriptor and
the new state, which is no longer running when a step failed. -/
def create_socket (L : Libc) (e : StartEnv) (type : Int) (addr : sockaddr_in) (p : Proc) :
    Int × Proc :=
  let reuseaddr : Int := 1
  let sockfd := e.socket_ret
  let p := p.emit (.socket L.PF_INET type 0)
  if sockfd = -1 then (sockfd, ERROR L "create_socket" "Error creating socket" p)
  else
    let p := p.emit (.setsockopt sockfd L.SOL_SOCKET L.SO_REUSEADDR reuseaddr)
    if e.setsockopt_ret = -1 then
      (sockfd, ERROR L "create_socket" "Error setting socket options" p)
    else
      let p := p.emit (.bind sockfd addr)
      if e.bind_ret = -1 then (sockfd, ERROR L "create_socket" "Error binding socket" p)
      else if type = L.SOCK_STREAM then
        let p := p.emit (.listen sockfd BACKLOG)
        if e.listen_ret = -1 then
          (sockfd,
            ERROR L "create_socket" "Error setting stream socket into listening mode" p)
        else (sockfd, p)
      else (sockfd, p)

/-- The function `start_server` (lines 201-218). -/
def start_server (L : Libc) (e : StartEnv) (p : Proc) : Proc :=
  let server_addr : sockaddr_in :=
    { sin_family := L.AF_INET, sin_port := L.htons p.cfg.port, sin_addr := p.cfg.server_ip }
  let p := { p with cfg := { p.cfg with server_addr := server_addr } }
  if p.cfg.proto = TCP then
    let r := create_socket L e L.SOCK_STREAM p.cfg.server_addr p
    if r.2.status = .running then
      let p := { r.2 with cfg := { r.2.cfg with sockfd := r.1 } }
      let p := p.emit (.fcntl p.cfg.sockfd L.F_GETFL 0)
      let p := p.emit (.fcntl p.cfg.sockfd L.F_SETFL (Int.lor e.getfl_ret L.O_NONBLOCK))
      LOG "Server started, listening on %s:%d ...\n" p
    else r.2
  else LOG "Server started, listening on %s:%d ...\n" p

/-- The function `destroy_server` (lines 267-274); `close_ret` is what `close`
returns. -/
def destroy_server (L : Libc) (close_ret : Int) (p : Proc) : Proc :=
  let p := p.emit (.close p.cfg.sockfd)
  if close_ret = -1 then ERROR L "destroy_server" "Error closing socket" p else p

/-! ## The service loop -/

/-- The answers of the system during one pass through the body of the loop. -/
structure IterEnv where
  /-- The return of `accept`. -/
  accept_ret : Int
  /-- The value of `errno` after `accept`. -/
  accept_errno : Int
  /-- The return of `time(NULL)`. -/
  now : Int
  /-- The return of `write`. -/
  write_ret : Int
  /-- The return of `close`. -/
  close_ret : Int
  /-- Whether SIGINT or SIGTERM arrives while the body runs, that is after the
  test of `active` that let the body start. -/
  signalled : Bool
deriving DecidableEq, Repr

/-- The state at the start of a pass: `exiting` has run when the signal of the
pass arrived.  The body never reads `active`, so the point of the body at which
the handler runs makes no difference to what the body does. -/
def IterEnv.arrive (L : Libc) (e : IterEnv) (p : Proc) : Proc :=
  if e.signalled then exiting L.SIGTERM p else p

/-- The body of the `while` loop of `main` (lines 75-100). -/
def main_body (L : Libc) (e : IterEnv) (p : Proc) : Proc :=
  let p := e.arrive L p
  let fd := e.accept_ret
  let p := p.emit (.accept p.cfg.sockfd)
  if fd = -1 ∧ e.accept_errno ≠ L.EWOULDBLOCK ∧ e.accept_errno ≠ L.EAGAIN then
    ERROR L "main" "Error incoming connection" p
  else if fd ≠ -1 then
    let p := LOG "Successful incoming connection from %s:%d.\n" p
    let r := sending_datetime L e.now e.write_ret fd p
    if r.1 = -1 then ERROR L "main" "Error sending datetime" r.2
    else
      let p := LOG "Successfully sent datetime to %s:%d.\n" r.2
      let p := p.emit (.close fd)
      if e.close_ret = -1 then ERROR L "main" "Error on closing socket" p
      else LOG "Successfully closing connection from %s:%d.\n" p
  else p

/-- What happens between two tests of the loop condition. -/
inductive Input where
  /-- SIGINT or SIGTERM is delivered while no pass is under way. -/
  | signal (sig : Int)
  /-- The answers of the system for the next pass through the body. -/
  | pass (e : IterEnv)
deriving DecidableEq, Repr

/-- How the `while (active)` loop of lines 74-101 ended. -/
inductive Loop where
  /-- The condition was found false: control reaches line 103. -/
  | left (p : Proc)
  /-- The process ended inside the body. -/
  | ended (p : Proc)
  /-- The inputs are used up and the condition still holds. -/
  | waiting (p : Proc)
deriving DecidableEq, Repr

/-- The `while (active)` loop of `main` (lines 74-101) over the given inputs. -/
def main_loop (L : Libc) : List Input → Proc → Loop
  | [], p => if p.active ≠ 0 then .waiting p else .left p
  | .signal sig :: rest, p =>
    if p.active ≠ 0 then main_loop L rest (exiting sig p) else .left p
  | .pass e :: rest, p =>
    if p.active ≠ 0 then
      if (main_body L e p).status = .running then main_loop L rest (main_body L e p)
      else .ended (main_body L e p)
    else .left p

/-- Lines 103-107 of `main`: `destroy_server`, `free` and `exit(EXIT_SUCCESS)`;
`close_ret` is what the `close` in `destroy_server` returns. -/
def main_exit (L : Libc) (close_ret : Int) (p : Proc) : Proc :=
  let p := destroy_server L close_ret p
  if p.status = .running then
    { p.emit .free with status := .exited L.EXIT_SUCCESS }
  else p

/-- The state after the loop and what follows it. -/
def main_finish (L : Libc) (close_ret : Int) : Loop → Proc
  | .left p => main_exit L close_ret p
  | .ended p => p
  | .waiting p => p

/-- All the answers of the system to one run of the program. -/
structure World where
  start : StartEnv
  inputs : List Input
  /-- The return of the `close` in `destroy_server`. -/
  last_close : Int

/-- The state of a process that enters `main`; the content of `cfg` stands for
the block `malloc` is about to return. -/
def Proc.init (heap : srvcfg) : Proc :=
  { active := 1, on_sigint := false, on_sigterm := false, cfg := heap, trace := [],
    status := .running }

/-- The content of the block `cfg` points to when `malloc` fails; nothing reads it. -/
def srvcfg.null : srvcfg :=
  { proto := 0, port := 0, server_ip := 0,
    server_addr := { sin_family := 0, sin_port := 0, sin_addr := 0 }, sockfd := 0 }

/-- The function `main` (lines 60-108) up to the loop: `malloc`,
`set_signal_handler`, `parse_arguments`, `start_server`. -/
def main_start (L : Libc) (e : StartEnv) (argv : List (List Char)) : Proc :=
  match e.malloc with
  | none => ERROR L "main" "Error allocating memory" (Proc.init srvcfg.null)
  | some heap =>
    let p := set_signal_handler L e (Proc.init heap)
    if p.status = .running then
      let p := parse_arguments L argv p
      if p.status = .running then start_server L e p else p
    else p

/-- The function `main` (lines 60-108). -/
def main (L : Libc) (w : World) (argv : List (List Char)) : Proc :=
  let p := main_start L w.start argv
  if p.status = .running then main_finish L w.last_close (main_loop L w.inputs p) else p

/-! ## A concrete platform -/

/-- A sample of `ctime` in the time zone UTC: the text of the example in the
comment of lines 257-260 for its clock value, the text of the epoch for every
other value that fits, and a null pointer beyond the years an `int` holds. -/
def linux_ctime (t : Int) : Option (List Char) :=
  if 67767976233532799 < t then none
  else if t = 1606390194 then some "Thu Nov 26 11:29:54 2020\n\x00".toList
  else some "Thu Jan  1 00:00:00 1970\n\x00".toList

/-- A sample of `inet_aton`: two dotted quads with their addresses in network
byte order; every other text is rejected here. -/
def linux_inet_aton (s : List Char) : Option Nat :=
  if s = "127.0.0.1".toList then some 0x0100007f
  else if s = "0.0.0.0".toList then some 0
  else none

/-- The constants of Linux on x86-64 with glibc, with samples of `ctime` and
`inet_aton`. -/
def linux : Libc :=
  { EXIT_SUCCESS := 0, EXIT_FAILURE := 1, SIGINT := 2, SIGTERM := 15,
    EWOULDBLOCK := 11, EAGAIN := 11, AF_INET := 2, PF_INET := 2,
    SOCK_STREAM := 1, SOCK_DGRAM := 2, SOL_SOCKET := 1, SO_REUSEADDR := 2,
    F_GETFL := 3, F_SETFL := 4, O_NONBLOCK := 2048, INADDR_ANY := 0,
    htonl := fun x =>
      x % 256 * 16777216 + x / 256 % 256 * 65536 + x / 65536 % 256 * 256 + x / 16777216 % 256,
    htons := fun x => x % 256 * 256 + x / 256 % 256,
    ctime := linux_ctime,
    inet_aton := linux_inet_aton }

/-! ## Sample inputs -/

/-- A content of the fresh `malloc` block: no field is zero. -/
def sample_heap : srvcfg :=
  { proto := 7, port := 7, server_ip := 0x0100007f,
    server_addr := { sin_family := 9, sin_port := 9, sin_addr := 9 }, sockfd := -3 }

/-- A start in which every call succeeds and `socket` returns descriptor 3. -/
def sample_start : StartEnv :=
  { malloc := some sample_heap, sigaction_int := 0, sigaction_term := 0, socket_ret := 3,
    setsockopt_ret := 0, bind_ret := 0, listen_ret := 0, getfl_ret := 2, setfl_ret := 0 }

/-- The command line without options. -/
def sample_argv : List (List Char) := ["daytime".toList]

/-- A process that listens on descriptor 3 and is about to test the loop
condition for the first time. -/
def sample_listening : Proc :=
  { active := 1, on_sigint := true, on_sigterm := true,
    cfg := { proto := TCP, port := 13, server_ip := 0,
             server_addr := { sin_family := 2, sin_port := 3328, sin_addr := 0 }, sockfd := 3 },
    trace := [], status := .running }

/-- A pass in which a client is accepted on descriptor 4 and served. -/
def sample_served : IterEnv :=
  { accept_ret := 4, accept_errno := 0, now := 1606390194, write_ret := 26, close_ret := 0,
    signalled := false }

/-- A pass in which no client is pending. -/
def sample_idle : IterEnv :=
  { accept_ret := -1, accept_errno := 11, now := 0, write_ret := 0, close_ret := 0,
    signalled := false }

/-- The events `q` has made beyond those of the earlier state `p`. -/
def Proc.since (q p : Proc) : List Event :=
  q.trace.drop p.trace.length

/-- The state a loop result carries. -/
def Loop.proc : Loop → Proc
  | .left p => p
  | .ended p => p
  | .waiting p => p

/-- The events of a pass in which a client is accepted and served. -/
def served_events (L : Libc) (sockfd : Int) (e : IterEnv) : List Event :=
  [ .accept sockfd,
    .stdout "Successful incoming connection from %s:%d.\n",
    .time,
    .write e.accept_ret (datetime_message L e.now),
    .stdout "Successfully sent datetime to %s:%d.\n",
    .close e.accept_ret,
    .stdout "Successfully closing connection from %s:%d.\n" ]

/-! ## Lemmas on C strings -/

theorem takeWhile_take_of_le {α : Type} (q : α → Bool) :
    ∀ (l : List α) (n : Nat), n ≤ (l.takeWhile q).length → (l.takeWhile q).take n = l.take n
  | [], n, _ => by simp
  | a :: l, 0, _ => by simp
  | a :: l, n + 1, h => by
    by_cases ha : q a = true
    · simp only [List.takeWhile_cons, ha, if_true, List.length_cons, Nat.add_le_add_iff_right] at h
      simp only [List.takeWhile_cons, ha, if_true, List.take_succ_cons]
      rw [takeWhile_take_of_le q l n h]
    · simp [List.takeWhile_cons, ha] at h

theorem takeWhile_append_stop {α : Type} (q : α → Bool) (b : α) (hb : q b = false) :
    ∀ (xs ys : List α), (∀ x ∈ xs, q x = true) → (xs ++ b :: ys).takeWhile q = xs
  | [], ys, _ => by simp [List.takeWhile_cons, hb]
  | a :: xs, ys, h => by
    have ha : q a = true := h a (List.mem_cons_self a xs)
    have ih := takeWhile_append_stop q b hb xs ys (fun x hx => h x (List.mem_cons_of_mem a hx))
    simp [List.takeWhile_cons, ha, ih]

theorem cstr_nul_free (mem : List Char) : ∀ c ∈ cstr mem, c ≠ '\x00' := by
  intro c hc
  have := List.mem_takeWhile_imp hc
  simpa using this

theorem cstr_append_nul (xs ys : List Char) (h : ∀ c ∈ xs, c ≠ '\x00') :
    cstr (xs ++ '\x00' :: ys) = xs := by
  unfold cstr
  apply takeWhile_append_stop
  · simp
  · intro x hx
    simpa using h x hx

/-- The buffer and the message of `sending_datetime` for a clock value whose
`ctime` text has at least 24 characters. -/
theorem datetime_of_full_text (L : Libc) (now : Int) (text : List Char)
    (hct : L.ctime now = some text) (hlen : 24 ≤ strlen text) :
    datetime_buffer L now = text.take 24 ++ ['\r', '\n', '\x00'] ∧
    datetime_message L now = text.take 24 ++ ['\r', '\n'] ∧
    (text.take 24).length = 24 := by
  have htake : (cstr text).take 24 = text.take 24 := takeWhile_take_of_le _ text 24 hlen
  have hlen24 : (text.take 24).length = 24 := by
    rw [← htake, List.length_take]
    exact Nat.min_eq_left hlen
  have hfree : ∀ c ∈ text.take 24 ++ ['\r', '\n'], c ≠ '\x00' := by
    intro c hc
    rcases List.mem_append.1 hc with h | h
    · rw [← htake] at h
      exact cstr_nul_free text c (List.mem_of_mem_take h)
    · rcases List.mem_cons.1 h with h | h
      · subst h; decide
      · rcases List.mem_cons.1 h with h | h
        · subst h; decide
        · simp at h
  have hbuf : datetime_buffer L now = text.take 24 ++ ['\r', '\n', '\x00'] := by
    unfold datetime_buffer snprintf fmt_s MSGLENGTH
    rw [hct]
    simp only [htake]
    have h26 : (text.take 24 ++ ['\r', '\n']).length = 26 := by simp [hlen24]
    rw [if_neg (by decide), List.take_of_length_le (by omega)]
    simp
  refine ⟨hbuf, ?_, hlen24⟩
  unfold datetime_message strlen
  rw [hbuf]
  have hsplit : text.take 24 ++ ['\r', '\n', '\x00'] =
      (text.take 24 ++ ['\r', '\n']) ++ '\x00' :: [] := by simp
  rw [hsplit, cstr_append_nul _ _ hfree, List.take_left]

/-! ## The service loop, case by case -/

theorem arrive_trace (L : Libc) (e : IterEnv) (p : Proc) : (e.arrive L p).trace = p.trace := by
  unfold IterEnv.arrive exiting
  split <;> rfl

theorem arrive_cfg (L : Libc) (e : IterEnv) (p : Proc) : (e.arrive L p).cfg = p.cfg := by
  unfold IterEnv.arrive exiting
  split <;> rfl

theorem arrive_status (L : Libc) (e : IterEnv) (p : Proc) :
    (e.arrive L p).status = p.status := by
  unfold IterEnv.arrive exiting
  split <;> rfl

theorem arrive_on_sigterm (L : Libc) (e : IterEnv) (p : Proc) :
    (e.arrive L p).on_sigterm = p.on_sigterm := by
  unfold IterEnv.arrive exiting
  split <;> rfl

theorem since_append (q p : Proc) (evs : List Event) (h : q.trace = p.trace ++ evs) :
    q.since p = evs := by
  unfold Proc.since
  rw [h, List.drop_left]

/-- The body when `accept` fails for good. -/
theorem main_body_accept_fatal (L : Libc) (e : IterEnv) (p : Proc)
    (h : e.accept_ret = -1 ∧ e.accept_errno ≠ L.EWOULDBLOCK ∧ e.accept_errno ≠ L.EAGAIN) :
    main_body L e p =
      ERROR L "main" "Error incoming connection" ((e.arrive L p).emit (.accept p.cfg.sockfd)) := by
  unfold main_body
  simp only [arrive_cfg]
  rw [if_pos h]

/-- The body when no connection is pending. -/
theorem main_body_would_block (L : Libc) (e : IterEnv) (p : Proc)
    (h1 : e.accept_ret = -1) (h2 : e.accept_errno = L.EWOULDBLOCK ∨ e.accept_errno = L.EAGAIN) :
    main_body L e p = (e.arrive L p).emit (.accept p.cfg.sockfd) := by
  unfold main_body
  simp only [arrive_cfg]
  rw [if_neg (by rintro ⟨_, h3, h4⟩; rcases h2 with h2 | h2 <;> contradiction),
    if_neg (by simpa using h1)]

/-- The body when a connection was accepted and `write` returned -1. -/
theorem main_body_write_fatal (L : Libc) (e : IterEnv) (p : Proc)
    (h1 : e.accept_ret ≠ -1) (h2 : e.write_ret = -1) :
    main_body L e p =
      ERROR L "main" "Error sending datetime"
        { e.arrive L p with
          trace := p.trace ++
            [ .accept p.cfg.sockfd,
              .stdout "Successful incoming connection from %s:%d.\n",
              .time,
              .write e.accept_ret (datetime_message L e.now) ] } := by
  unfold main_body
  simp only [arrive_cfg]
  rw [if_neg (by rintro ⟨h, _⟩; exact h1 h), if_pos h1]
  simp [sending_datetime, h2, LOG, Proc.emit, arrive_trace, arrive_cfg, datetime_message]

/-- The body when a connection was accepted and `write` returned something else
than -1, up to the `close`. -/
theorem main_body_written (L : Libc) (e : IterEnv) (p : Proc)
    (h1 : e.accept_ret ≠ -1) (h2 : e.write_ret ≠ -1) :
    main_body L e p =
      if e.close_ret = -1 then
        ERROR L "main" "Error on closing socket"
          { e.arrive L p with
            trace := p.trace ++
              [ .accept p.cfg.sockfd,
                .stdout "Successful incoming connection from %s:%d.\n",
                .time,
                .write e.accept_ret (datetime_message L e.now),
                .stdout "Successfully sent datetime to %s:%d.\n",
                .close e.accept_ret ] }
      else
        { e.arrive L p with
          trace := p.trace ++
            [ .accept p.cfg.sockfd,
              .stdout "Successful incoming connection from %s:%d.\n",
              .time,
              .write e.accept_ret (datetime_message L e.now),
              .stdout "Successfully sent datetime to %s:%d.\n",
              .close e.accept_ret,
              .stdout "Successfully closing connection from %s:%d.\n" ] } := by
  unfold main_body
  simp only [arrive_cfg]
  rw [if_neg (by rintro ⟨h, _⟩; exact h1 h), if_pos h1]
  simp [sending_datetime, h2, LOG, Proc.emit, arrive_trace, arrive_cfg, datetime_message]

theorem ERROR_trace (L : Libc) (func str : String) (p : Proc) :
    (ERROR L func str p).trace = p.trace ++ [.stderr func str, .kill 0 L.SIGTERM] := by
  by_cases h : p.on_sigterm = true <;> simp [ERROR, exiting, Proc.emit, h]

theorem ERROR_status (L : Libc) (func str : String) (p : Proc) (h : p.on_sigterm = true) :
    (ERROR L func str p).status = .exited L.EXIT_FAILURE := by
  unfold ERROR exiting Proc.emit
  simp [h]

theorem ERROR_cfg (L : Libc) (func str : String) (p : Proc) : (ERROR L func str p).cfg = p.cfg := by
  by_cases h : p.on_sigterm = true <;> simp [ERROR, exiting, Proc.emit, h]

theorem ERROR_not_running (L : Libc) (func str : String) (p : Proc) :
    (ERROR L func str p).status ≠ .running := by
  by_cases h : p.on_sigterm = true <;> simp [ERROR, exiting, Proc.emit, h]

/-! ## The message -/

/-- C1: for every clock value whose `ctime` text has at least 24 characters,
`sending_datetime` hands to `write` exactly 26 bytes: the first 24 characters of
that text, then carriage return as byte 24 and line feed as byte 25.  The
formatted output and its NUL fit in the buffer of `MSGLENGTH` = 27 bytes, so
nothing is cut, and `strlen(buffer)`, the length passed to `write`, is 26. -/
theorem sending_datetime_writes_26_bytes (L : Libc) (now write_ret fd : Int) (p : Proc)
    (text : List Char) (hct : L.ctime now = some text) (hlen : 24 ≤ strlen text) :
    (sending_datetime L now write_ret fd p).2.trace =
        p.trace ++ [.time, .write fd ((cstr text).take 24 ++ ['\r', '\n'])] ∧
    ((cstr text).take 24).length = 24 ∧
    ((cstr text).take 24 ++ ['\r', '\n']).length = 26 ∧
    ((cstr text).take 24 ++ ['\r', '\n'])[24]? = some '\r' ∧
    ((cstr text).take 24 ++ ['\r', '\n'])[25]? = some '\n' ∧
    strlen (datetime_buffer L now) = 26 ∧
    datetime_buffer L now = (cstr text).take 24 ++ ['\r', '\n'] ++ ['\x00'] ∧
    (datetime_buffer L now).length = MSGLENGTH ∧
    (fmt_s 24 (L.ctime now) ++ ['\r', '\n']).length < MSGLENGTH := by
  obtain ⟨hbuf, hmsg, h24⟩ := datetime_of_full_text L now text hct hlen
  have htake : (cstr text).take 24 = text.take 24 := takeWhile_take_of_le _ text 24 hlen
  have hmsg2 : (datetime_buffer L now).take (strlen (datetime_buffer L now)) =
      text.take 24 ++ ['\r', '\n'] := hmsg
  have hstr : strlen (datetime_buffer L now) = 26 := by
    have h1 : ((datetime_buffer L now).take (strlen (datetime_buffer L now))).length = 26 := by
      rw [hmsg2]; simp [h24]
    have h2 : strlen (datetime_buffer L now) ≤ (datetime_buffer L now).length := by
      unfold strlen cstr
      exact (List.takeWhile_prefix _).length_le
    rw [List.length_take, Nat.min_eq_left h2] at h1
    exact h1
  rw [htake]
  refine ⟨?_, h24, by simp [h24], ?_, ?_, hstr, by rw [hbuf]; simp, ?_, ?_⟩
  · simp [sending_datetime, Proc.emit, hmsg2]
  · rw [List.getElem?_append_right (by omega)]
    simp [h24]
  · rw [List.getElem?_append_right (by omega)]
    simp [h24]
  · rw [hbuf]; simp [h24, MSGLENGTH]
  · simp [fmt_s, hct, htake, h24, MSGLENGTH]

/-- The text of the example in the source has 24 characters before its newline,
and the message for it is that text with CR LF. -/
theorem sending_datetime_writes_26_bytes_witness :
    24 ≤ strlen "Thu Nov 26 11:29:54 2020\n\x00".toList ∧
    (sending_datetime linux 1606390194 26 4 sample_listening).2.trace =
      [.time, .write 4 "Thu Nov 26 11:29:54 2020\r\n".toList] ∧
    strlen (datetime_buffer linux 1606390194) = 26 :=
  ⟨by decide,
   (sending_datetime_writes_26_bytes linux 1606390194 26 4 sample_listening
      "Thu Nov 26 11:29:54 2020\n\x00".toList (by decide) (by decide)).1,
   (sending_datetime_writes_26_bytes linux 1606390194 26 4 sample_listening
      "Thu Nov 26 11:29:54 2020\n\x00".toList (by decide) (by decide)).2.2.2.2.2.1⟩

/-! ## One pass through the loop -/

/-- C2, as stated, fails: a pass in which the client is accepted on descriptor 4
and `write` returns 10, fewer than the 26 bytes of the message, is not fatal.
The process goes on running, logs the success and closes the connection; a run
of the whole program with that pass, ended by SIGTERM, exits with the success
status. -/
theorem partial_write_is_not_fatal :
    ({ sample_served with write_ret := 10 } : IterEnv).write_ret <
        ((datetime_message linux sample_served.now).length : Int) ∧
    (main_body linux { sample_served with write_ret := 10 } sample_listening).status = .running ∧
    (main_body linux { sample_served with write_ret := 10 } sample_listening).since
        sample_listening =
      [ .accept 3,
        .stdout "Successful incoming connection from %s:%d.\n",
        .time,
        .write 4 "Thu Nov 26 11:29:54 2020\r\n".toList,
        .stdout "Successfully sent datetime to %s:%d.\n",
        .close 4,
        .stdout "Successfully closing connection from %s:%d.\n" ] ∧
    (main linux
      { start := sample_start,
        inputs := [.pass { sample_served with write_ret := 10 }, .signal 15],
        last_close := 0 } sample_argv).status = .exited linux.EXIT_SUCCESS := by
  decide

/-- C2, amended: for every accepted connection a `write` that returns -1 is
fatal for the whole process: the loop takes the ERROR path of line 90 and exits
with failure status, without the success log and without closing the connection.
The ERROR path of line 90 is taken only then: for every other return value,
a count below 26 included, the loop logs the success and goes on to close the
connection. -/
theorem write_error_is_fatal (L : Libc) (e : IterEnv) (p : Proc)
    (hterm : p.on_sigterm = true) (hacc : e.accept_ret ≠ -1) :
    (Event.stderr "main" "Error sending datetime" ∈ (main_body L e p).since p ↔
      e.write_ret = -1) ∧
    (e.write_ret = -1 →
      (main_body L e p).status = .exited L.EXIT_FAILURE ∧
      (main_body L e p).since p =
        [ .accept p.cfg.sockfd,
          .stdout "Successful incoming connection from %s:%d.\n",
          .time,
          .write e.accept_ret (datetime_message L e.now),
          .stderr "main" "Error sending datetime",
          .kill 0 L.SIGTERM ]) ∧
    (e.write_ret ≠ -1 →
      (main_body L e p).since p =
        [ .accept p.cfg.sockfd,
          .stdout "Successful incoming connection from %s:%d.\n",
          .time,
          .write e.accept_ret (datetime_message L e.now),
          .stdout "Successfully sent datetime to %s:%d.\n",
          .close e.accept_ret ] ++
        (if e.close_ret = -1 then
          [.stderr "main" "Error on closing socket", .kill 0 L.SIGTERM]
        else [.stdout "Successfully closing connection from %s:%d.\n"])) := by
  have hfail : e.write_ret = -1 →
      (main_body L e p).status = .exited L.EXIT_FAILURE ∧
      (main_body L e p).since p =
        [ .accept p.cfg.sockfd,
          .stdout "Successful incoming connection from %s:%d.\n",
          .time,
          .write e.accept_ret (datetime_message L e.now),
          .stderr "main" "Error sending datetime",
          .kill 0 L.SIGTERM ] := by
    intro hw
    rw [main_body_write_fatal L e p hacc hw]
    refine ⟨ERROR_status _ _ _ _ (by simpa [arrive_on_sigterm] using hterm), ?_⟩
    apply since_append
    rw [ERROR_trace]
    simp
  have hgood : e.write_ret ≠ -1 →
      (main_body L e p).since p =
        [ .accept p.cfg.sockfd,
          .stdout "Successful incoming connection from %s:%d.\n",
          .time,
          .write e.accept_ret (datetime_message L e.now),
          .stdout "Successfully sent datetime to %s:%d.\n",
          .close e.accept_ret ] ++
        (if e.close_ret = -1 then
          [.stderr "main" "Error on closing socket", .kill 0 L.SIGTERM]
        else [.stdout "Successfully closing connection from %s:%d.\n"]) := by
    intro hw
    rw [main_body_written L e p hacc hw]
    apply since_append
    by_cases hc : e.close_ret = -1
    · rw [if_pos hc, if_pos hc, ERROR_trace]
      simp
    · rw [if_neg hc, if_neg hc]
      simp
  refine ⟨⟨?_, ?_⟩, hfail, hgood⟩
  · intro hmem
    by_contra hw
    rw [hgood hw] at hmem
    by_cases hc : e.close_ret = -1
    · rw [if_pos hc] at hmem
      simp at hmem
    · rw [if_neg hc] at hmem
      simp at hmem
  · intro hw
    rw [(hfail hw).2]
    simp

/-- A served pass whose `write` returns -1 ends the process with status 1, and
one whose `write` returns 26 closes the connection. -/
theorem write_error_is_fatal_witness :
    sample_listening.on_sigterm = true ∧ sample_served.accept_ret ≠ -1 ∧
    ({ sample_served with write_ret := -1 } : IterEnv).write_ret = -1 ∧
    (main_body linux { sample_served with write_ret := -1 } sample_listening).status =
      .exited 1 ∧
    sample_served.write_ret ≠ -1 ∧
    (main_body linux sample_served sample_listening).since sample_listening =
      [ .accept 3,
        .stdout "Successful incoming connection from %s:%d.\n",
        .time,
        .write 4 (datetime_message linux 1606390194),
        .stdout "Successfully sent datetime to %s:%d.\n",
        .close 4,
        .stdout "Successfully closing connection from %s:%d.\n" ] :=
  ⟨by decide, by decide, by decide,
   ((write_error_is_fatal linux { sample_served with write_ret := -1 } sample_listening
      (by decide) (by decide)).2.1 (by decide)).1,
   by decide,
   (write_error_is_fatal linux sample_served sample_listening
      (by decide) (by decide)).2.2 (by decide)⟩

/-- The events of one pass, in every case. -/
theorem main_body_since (L : Libc) (e : IterEnv) (p : Proc) :
    (main_body L e p).since p =
      .accept p.cfg.sockfd ::
        (if e.accept_ret = -1 then
          (if e.accept_errno ≠ L.EWOULDBLOCK ∧ e.accept_errno ≠ L.EAGAIN then
            [.stderr "main" "Error incoming connection", .kill 0 L.SIGTERM]
          else [])
        else
          [ .stdout "Successful incoming connection from %s:%d.\n",
            .time,
            .write e.accept_ret (datetime_message L e.now) ] ++
          (if e.write_ret = -1 then
            [.stderr "main" "Error sending datetime", .kill 0 L.SIGTERM]
          else
            [ .stdout "Successfully sent datetime to %s:%d.\n",
              .close e.accept_ret ] ++
            (if e.close_ret = -1 then
              [.stderr "main" "Error on closing socket", .kill 0 L.SIGTERM]
            else [.stdout "Successfully closing connection from %s:%d.\n"]))) := by
  apply since_append
  by_cases hacc : e.accept_ret = -1
  · by_cases herr : e.accept_errno ≠ L.EWOULDBLOCK ∧ e.accept_errno ≠ L.EAGAIN
    · rw [main_body_accept_fatal L e p ⟨hacc, herr⟩, ERROR_trace]
      simp [hacc, herr, Proc.emit, arrive_trace]
    · have h2 : e.accept_errno = L.EWOULDBLOCK ∨ e.accept_errno = L.EAGAIN := by
        by_contra hcon
        exact herr ⟨fun h => hcon (Or.inl h), fun h => hcon (Or.inr h)⟩
      rw [main_body_would_block L e p hacc h2]
      simp only [if_pos hacc, if_neg herr]
      simp [Proc.emit, arrive_trace]
  · by_cases hw : e.write_ret = -1
    · rw [main_body_write_fatal L e p hacc hw, ERROR_trace]
      simp [hacc, hw]
    · rw [main_body_written L e p hacc hw]
      by_cases hc : e.close_ret = -1
      · rw [if_pos hc, ERROR_trace]
        simp [hacc, hw, hc]
      · rw [if_neg hc]
        simp [hacc, hw, hc]

/-- A pass of a running process with the flag set is followed by the next test
of the loop condition exactly when the body did not end the process. -/
theorem main_loop_pass (L : Libc) (e : IterEnv) (rest : List Input) (p : Proc)
    (hact : p.active ≠ 0) :
    main_loop L (.pass e :: rest) p =
      if (main_body L e p).status = .running then main_loop L rest (main_body L e p)
      else .ended (main_body L e p) := by
  simp [main_loop, hact]

/-- C3: in one pass of the loop the accept attempt is fatal (the ERROR path of
line 80, exit with failure status) exactly when `accept` returns -1 and `errno`
is neither EWOULDBLOCK nor EAGAIN.  When `accept` returns -1 with one of these
two codes the pass does nothing but the `accept` call: no message is built,
nothing is written or closed, the configuration with its listening descriptor is
unchanged, the process keeps running and the loop goes on to the next test of
its condition. -/
theorem accept_fatal_iff (L : Libc) (e : IterEnv) (p : Proc) (rest : List Input)
    (hterm : p.on_sigterm = true) (hrun : p.status = .running) (hact : p.active ≠ 0) :
    (Event.stderr "main" "Error incoming connection" ∈ (main_body L e p).since p ↔
      e.accept_ret = -1 ∧ e.accept_errno ≠ L.EWOULDBLOCK ∧ e.accept_errno ≠ L.EAGAIN) ∧
    (e.accept_ret = -1 ∧ e.accept_errno ≠ L.EWOULDBLOCK ∧ e.accept_errno ≠ L.EAGAIN →
      (main_body L e p).status = .exited L.EXIT_FAILURE ∧
      (main_body L e p).since p =
        [.accept p.cfg.sockfd, .stderr "main" "Error incoming connection", .kill 0 L.SIGTERM] ∧
      main_loop L (.pass e :: rest) p = .ended (main_body L e p)) ∧
    (e.accept_ret = -1 ∧ (e.accept_errno = L.EWOULDBLOCK ∨ e.accept_errno = L.EAGAIN) →
      (main_body L e p).since p = [.accept p.cfg.sockfd] ∧
      (main_body L e p).cfg = p.cfg ∧
      (main_body L e p).status = .running ∧
      main_loop L (.pass e :: rest) p = main_loop L rest (main_body L e p)) := by
  refine ⟨?_, ?_, ?_⟩
  · rw [main_body_since]
    by_cases hacc : e.accept_ret = -1
    · by_cases herr : e.accept_errno ≠ L.EWOULDBLOCK ∧ e.accept_errno ≠ L.EAGAIN
      · simp [hacc, herr]
      · simp only [if_pos hacc, if_neg herr]
        simp [hacc, herr]
    · by_cases hw : e.write_ret = -1
      · simp [hacc, hw]
      · by_cases hc : e.close_ret = -1
        · simp [hacc, hw, hc]
        · simp [hacc, hw, hc]
  · intro h
    have hst : (main_body L e p).status = .exited L.EXIT_FAILURE := by
      rw [main_body_accept_fatal L e p h]
      exact ERROR_status _ _ _ _ (by simpa [Proc.emit, arrive_on_sigterm] using hterm)
    refine ⟨hst, ?_, ?_⟩
    · rw [main_body_since, if_pos h.1, if_pos h.2]
    · rw [main_loop_pass L e rest p hact, hst]
      simp
  · rintro ⟨hacc, herr⟩
    have hb := main_body_would_block L e p hacc herr
    have hst : (main_body L e p).status = .running := by
      rw [hb]
      simpa [Proc.emit, arrive_status] using hrun
    refine ⟨?_, ?_, hst, ?_⟩
    · rw [main_body_since, if_pos hacc, if_neg]
      rintro ⟨h1, h2⟩
      rcases herr with h | h
      · exact h1 h
      · exact h2 h
    · rw [hb]
      simp [Proc.emit, arrive_cfg]
    · rw [main_loop_pass L e rest p hact, hst]
      simp

/-- An idle pass leaves the sample process as it was but for the `accept` call,
and a pass whose `accept` fails with another code ends it with status 1. -/
theorem accept_fatal_iff_witness :
    sample_listening.on_sigterm = true ∧ sample_listening.status = .running ∧
    sample_listening.active ≠ 0 ∧
    (sample_idle.accept_ret = -1 ∧
      (sample_idle.accept_errno = linux.EWOULDBLOCK ∨ sample_idle.accept_errno = linux.EAGAIN)) ∧
    (main_body linux sample_idle sample_listening).since sample_listening = [.accept 3] ∧
    (main_body linux { sample_idle with accept_errno := 24 } sample_listening).status =
      .exited 1 :=
  ⟨by decide, by decide, by decide, by decide,
   ((accept_fatal_iff linux sample_idle sample_listening [] (by decide) (by decide)
      (by decide)).2.2 (by decide)).1,
   ((accept_fatal_iff linux { sample_idle with accept_errno := 24 } sample_listening []
      (by decide) (by decide) (by decide)).2.1 (by decide)).1⟩

/-- The state after a pass in which a client is accepted and served. -/
theorem main_body_served (L : Libc) (e : IterEnv) (p : Proc)
    (hacc : e.accept_ret ≠ -1) (hw : e.write_ret ≠ -1) (hc : e.close_ret ≠ -1) :
    main_body L e p =
      { e.arrive L p with trace := p.trace ++ served_events L p.cfg.sockfd e } := by
  rw [main_body_written L e p hacc hw, if_neg hc]
  rfl

theorem arrive_quiet (L : Libc) (e : IterEnv) (p : Proc) (h : e.signalled = false) :
    e.arrive L p = p := by
  simp [IterEnv.arrive, h]

/-- C4: in every pass of the loop in which `accept` returns a descriptor and the
`write` and the `close` succeed, what is done on the connection is exactly one
`write` of the freshly built daytime message followed by one `close`, and no
`read`.  The configuration with its listening descriptor is unchanged and the
process keeps running, so that the next pass accepts and serves another client
in the same way; the message of each pass is `datetime_message` of the clock
value read in that pass, whatever the state of the process and whatever went
before. -/
theorem served_pass_exact (L : Libc) (e e2 : IterEnv) (p : Proc) (rest : List Input)
    (hrun : p.status = .running) (hact : p.active ≠ 0)
    (hacc : e.accept_ret ≠ -1) (hw : e.write_ret ≠ -1) (hc : e.close_ret ≠ -1)
    (hacc2 : e2.accept_ret ≠ -1) (hw2 : e2.write_ret ≠ -1) (hc2 : e2.close_ret ≠ -1) :
    (main_body L e p).since p =
      [ .accept p.cfg.sockfd,
        .stdout "Successful incoming connection from %s:%d.\n",
        .time,
        .write e.accept_ret (datetime_message L e.now),
        .stdout "Successfully sent datetime to %s:%d.\n",
        .close e.accept_ret,
        .stdout "Successfully closing connection from %s:%d.\n" ] ∧
    (∀ fd, Event.read fd ∉ (main_body L e p).since p) ∧
    (main_body L e p).cfg = p.cfg ∧
    (main_body L e p).status = .running ∧
    (e.signalled = false →
      main_loop L (.pass e :: .pass e2 :: rest) p =
        main_loop L rest (main_body L e2 (main_body L e p))) ∧
    (main_body L e2 (main_body L e p)).since (main_body L e p) =
      [ .accept p.cfg.sockfd,
        .stdout "Successful incoming connection from %s:%d.\n",
        .time,
        .write e2.accept_ret (datetime_message L e2.now),
        .stdout "Successfully sent datetime to %s:%d.\n",
        .close e2.accept_ret,
        .stdout "Successfully closing connection from %s:%d.\n" ] ∧
    (main_body L e2 (main_body L e p)).cfg = p.cfg ∧
    (main_body L e2 (main_body L e p)).status = .running ∧
    (∀ (q : Proc) (write_ret fd : Int),
      (sending_datetime L e.now write_ret fd q).2.since q =
        [.time, .write fd (datetime_message L e.now)]) := by
  have h1 := main_body_served L e p hacc hw hc
  have hcfg : (main_body L e p).cfg = p.cfg := by rw [h1]; exact arrive_cfg L e p
  have hst : (main_body L e p).status = .running := by
    rw [h1]; exact (arrive_status L e p).trans hrun
  have h2 := main_body_served L e2 (main_body L e p) hacc2 hw2 hc2
  have hs1 : (main_body L e p).since p = served_events L p.cfg.sockfd e := by
    apply since_append
    rw [h1]
  have hcfg2 : (main_body L e2 (main_body L e p)).cfg = p.cfg := by
    rw [h2]; exact (arrive_cfg L e2 _).trans hcfg
  have hst2 : (main_body L e2 (main_body L e p)).status = .running := by
    rw [h2]; exact (arrive_status L e2 _).trans hst
  refine ⟨hs1, ?_, hcfg, hst, ?_, ?_, hcfg2, hst2, ?_⟩
  · intro fd
    rw [hs1]
    simp [served_events]
  · intro hq
    have hac : (main_body L e p).active ≠ 0 := by
      rw [h1, arrive_quiet L e p hq]; exact hact
    rw [main_loop_pass L e _ p hact, if_pos hst, main_loop_pass L e2 _ _ hac, if_pos hst2]
  · apply since_append
    rw [h2, hcfg]
    rfl
  · intro q write_ret fd
    apply since_append
    simp [sending_datetime, Proc.emit, datetime_message]

/-- Two clients served one after the other by the sample process. -/
theorem served_pass_exact_witness :
    sample_listening.status = .running ∧ sample_listening.active ≠ 0 ∧
    sample_served.accept_ret ≠ -1 ∧ sample_served.write_ret ≠ -1 ∧
    sample_served.close_ret ≠ -1 ∧ sample_served.signalled = false ∧
    (main_body linux sample_served sample_listening).since sample_listening =
      [ .accept 3,
        .stdout "Successful incoming connection from %s:%d.\n",
        .time,
        .write 4 (datetime_message linux 1606390194),
        .stdout "Successfully sent datetime to %s:%d.\n",
        .close 4,
        .stdout "Successfully closing connection from %s:%d.\n" ] ∧
    main_loop linux
        [.pass sample_served, .pass { sample_served with accept_ret := 5, now := 0 }]
        sample_listening =
      main_loop linux []
        (main_body linux { sample_served with accept_ret := 5, now := 0 }
          (main_body linux sample_served sample_listening)) :=
  ⟨by decide, by decide, by decide, by decide, by decide, by decide,
   (served_pass_exact linux sample_served { sample_served with accept_ret := 5, now := 0 }
      sample_listening [] (by decide) (by decide) (by decide) (by decide) (by decide)
      (by decide) (by decide) (by decide)).1,
   (served_pass_exact linux sample_served { sample_served with accept_ret := 5, now := 0 }
      sample_listening [] (by decide) (by decide) (by decide) (by decide) (by decide)
      (by decide) (by decide) (by decide)).2.2.2.2.1 (by decide)⟩

/-! ## Start-up -/

/-- When its four calls succeed `create_socket` returns the descriptor of
`socket` and leaves the process running. -/
theorem create_socket_ok (L : Libc) (e : StartEnv) (addr : sockaddr_in) (p : Proc)
    (h1 : e.socket_ret ≠ -1) (h2 : e.setsockopt_ret ≠ -1) (h3 : e.bind_ret ≠ -1)
    (h4 : e.listen_ret ≠ -1) :
    create_socket L e L.SOCK_STREAM addr p =
      (e.socket_ret,
        { p with
          trace := p.trace ++
            [ .socket L.PF_INET L.SOCK_STREAM 0,
              .setsockopt e.socket_ret L.SOL_SOCKET L.SO_REUSEADDR 1,
              .bind e.socket_ret addr,
              .listen e.socket_ret BACKLOG ] }) := by
  simp [create_socket, h1, h2, h3, h4, Proc.emit]

/-- What `start_server` does for the stream protocol when the four calls of
`create_socket` succeed: the two `fcntl` calls follow, whatever they return. -/
theorem start_server_ok (L : Libc) (e : StartEnv) (p : Proc) (hproto : p.cfg.proto = TCP)
    (hrun : p.status = .running)
    (h1 : e.socket_ret ≠ -1) (h2 : e.setsockopt_ret ≠ -1) (h3 : e.bind_ret ≠ -1)
    (h4 : e.listen_ret ≠ -1) :
    start_server L e p =
      { p with
        cfg := { p.cfg with
          server_addr :=
            { sin_family := L.AF_INET, sin_port := L.htons p.cfg.port,
              sin_addr := p.cfg.server_ip },
          sockfd := e.socket_ret },
        trace := p.trace ++
          [ .socket L.PF_INET L.SOCK_STREAM 0,
            .setsockopt e.socket_ret L.SOL_SOCKET L.SO_REUSEADDR 1,
            .bind e.socket_ret
              { sin_family := L.AF_INET, sin_port := L.htons p.cfg.port,
                sin_addr := p.cfg.server_ip },
            .listen e.socket_ret BACKLOG,
            .fcntl e.socket_ret L.F_GETFL 0,
            .fcntl e.socket_ret L.F_SETFL (Int.lor e.getfl_ret L.O_NONBLOCK),
            .stdout "Server started, listening on %s:%d ...\n" ] } := by
  unfold start_server
  simp only [hproto, if_true]
  rw [create_socket_ok L e _ _ h1 h2 h3 h4]
  simp [hrun, LOG, Proc.emit]

/-- For another protocol than TCP `start_server` only fills in `server_addr`
and logs. -/
theorem start_server_other (L : Libc) (e : StartEnv) (p : Proc) (hproto : p.cfg.proto ≠ TCP) :
    start_server L e p =
      { p with
        cfg := { p.cfg with
          server_addr :=
            { sin_family := L.AF_INET, sin_port := L.htons p.cfg.port,
              sin_addr := p.cfg.server_ip } },
        trace := p.trace ++ [.stdout "Server started, listening on %s:%d ...\n"] } := by
  unfold start_server
  simp [hproto, LOG, Proc.emit]

/-! ## Command line -/

/-- One return of `getopt_long` either ends the process in `print_usage` or
changes nothing but the configuration. -/
theorem parse_switch_cases (L : Libc) (o : Opt) (p : Proc) :
    parse_switch L o p = print_usage L p ∨
    ∃ cfg, parse_switch L o p = { p with cfg := cfg } ∧
      (cfg.proto = p.cfg.proto ∨ cfg.proto = TCP) := by
  unfold parse_switch
  by_cases hi : o.ret = 'i'
  · simp only [hi, if_true]
    right
    cases L.inet_aton o.optarg with
    | none => exact ⟨_, rfl, Or.inl rfl⟩
    | some a => exact ⟨_, rfl, Or.inl rfl⟩
  · by_cases ht : o.ret = 't'
    · simp only [hi, ht, if_false, if_true]
      by_cases hu : p.cfg.proto = UDP
      · left; simp [hu]
      · right; simp only [hu, if_false]; exact ⟨_, rfl, Or.inr rfl⟩
    · by_cases hp : o.ret = 'p'
      · simp only [hi, ht, hp, if_false, if_true]
        cases sscanf_hu o.optarg with
        | none => left; rfl
        | some v => right; exact ⟨_, rfl, Or.inl rfl⟩
      · left; simp [hi, ht, hp]

theorem print_usage_not_running (L : Libc) (p : Proc) : (print_usage L p).status ≠ .running := by
  simp [print_usage]

/-- The selector of the configuration is TCP after the option loop when it was
before. -/
theorem parse_loop_proto (L : Libc) :
    ∀ (rs : List Opt) (p : Proc), p.cfg.proto = TCP → (parse_loop L rs p).cfg.proto = TCP
  | [], p, h => h
  | o :: rest, p, h => by
    have hsw : (parse_switch L o p).cfg.proto = TCP := by
      rcases parse_switch_cases L o p with hu | ⟨cfg, hc, hp⟩
      · rw [hu]; exact h
      · rw [hc]
        rcases hp with hp | hp
        · exact hp.trans h
        · exact hp
    unfold parse_loop
    by_cases hst : (parse_switch L o p).status = .running
    · rw [if_pos hst]
      exact parse_loop_proto L rest _ hsw
    · rw [if_neg hst]
      exact hsw

/-- The selector of the configuration is TCP after `parse_arguments`. -/
theorem parse_arguments_proto (L : Libc) (argv : List (List Char)) (p : Proc) :
    (parse_arguments L argv p).cfg.proto = TCP := by
  unfold parse_arguments
  exact parse_loop_proto L _ _ rfl

/-- An option that is none of `i`, `t`, `p`, or a `p` whose value `sscanf` cannot
convert, leads to `print_usage`. -/
theorem parse_switch_bad (L : Libc) (o : Opt) (p : Proc)
    (hbad : (o.ret ≠ 'i' ∧ o.ret ≠ 't' ∧ o.ret ≠ 'p') ∨
      (o.ret = 'p' ∧ sscanf_hu o.optarg = none)) :
    parse_switch L o p = print_usage L p := by
  unfold parse_switch
  rcases hbad with ⟨hi, ht, hp⟩ | ⟨hp, hs⟩
  · simp [hi, ht, hp]
  · have hi : o.ret ≠ 'i' := by rw [hp]; decide
    have ht : o.ret ≠ 't' := by rw [hp]; decide
    simp [hi, ht, hp, hs]

/-- The option loop ends in `print_usage` as soon as one of the returns of
`getopt_long` is refused. -/
theorem parse_loop_usage (L : Libc) :
    ∀ (rs : List Opt) (p : Proc), p.status = .running →
      (∃ o ∈ rs, (o.ret ≠ 'i' ∧ o.ret ≠ 't' ∧ o.ret ≠ 'p') ∨
        (o.ret = 'p' ∧ sscanf_hu o.optarg = none)) →
      (parse_loop L rs p).status = .exited L.EXIT_SUCCESS ∧
      (parse_loop L rs p).trace = p.trace ++ [.stdout usage_text] ∧
      (parse_loop L rs p).active = p.active
  | [], p, _, h => by
    rcases h with ⟨o, ho, _⟩
    simp at ho
  | o :: rest, p, hrun, h => by
    unfold parse_loop
    rcases parse_switch_cases L o p with hu | ⟨cfg, hc, _⟩
    · rw [hu, if_neg (print_usage_not_running L p)]
      simp [print_usage, Proc.emit]
    · have hst : (parse_switch L o p).status = .running := by rw [hc]; exact hrun
      rw [if_pos hst]
      have hrest : ∃ o' ∈ rest, (o'.ret ≠ 'i' ∧ o'.ret ≠ 't' ∧ o'.ret ≠ 'p') ∨
          (o'.ret = 'p' ∧ sscanf_hu o'.optarg = none) := by
        rcases h with ⟨o', ho', hbad⟩
        rcases List.mem_cons.1 ho' with heq | hmem
        · subst heq
          rw [parse_switch_bad L o' p hbad] at hst
          exact absurd hst (print_usage_not_running L p)
        · exact ⟨o', hmem, hbad⟩
      have ih := parse_loop_usage L rest (parse_switch L o p) hst hrest
      rw [hc] at ih ⊢
      exact ih

theorem parse_loop_cons (L : Libc) (o : Opt) (rest : List Opt) (p : Proc) :
    parse_loop L (o :: rest) p =
      if (parse_switch L o p).status = .running then parse_loop L rest (parse_switch L o p)
      else parse_switch L o p := rfl

/-- A refused return of `getopt_long` makes `parse_arguments` end in the usage
text. -/
theorem parse_arguments_usage (L : Libc) (argv : List (List Char)) (p : Proc)
    (hrun : p.status = .running)
    (h : ∃ o ∈ getopt_long argv, (o.ret ≠ 'i' ∧ o.ret ≠ 't' ∧ o.ret ≠ 'p') ∨
      (o.ret = 'p' ∧ sscanf_hu o.optarg = none)) :
    (parse_arguments L argv p).status = .exited L.EXIT_SUCCESS ∧
    (parse_arguments L argv p).trace = p.trace ++ [.stdout usage_text] ∧
    (parse_arguments L argv p).active = p.active :=
  parse_loop_usage L (getopt_long argv)
    { p with cfg := { p.cfg with port := PORT, proto := TCP } } hrun h

/-- The option loop over two runs of returns, one after the other. -/
theorem parse_loop_append (L : Libc) :
    ∀ (xs ys : List Opt) (p : Proc), p.status = .running →
      parse_loop L (xs ++ ys) p =
        if (parse_loop L xs p).status = .running then parse_loop L ys (parse_loop L xs p)
        else parse_loop L xs p
  | [], ys, p, hrun => by simp [parse_loop, hrun]
  | o :: xs, ys, p, _ => by
    simp only [List.cons_append, parse_loop]
    by_cases hst : (parse_switch L o p).status = .running
    · simp only [hst, if_true]
      exact parse_loop_append L xs ys _ hst
    · simp [hst]

/-- An option other than `i` leaves the address alone. -/
theorem parse_switch_server_ip (L : Libc) (o : Opt) (p : Proc) (h : o.ret ≠ 'i') :
    (parse_switch L o p).cfg.server_ip = p.cfg.server_ip := by
  unfold parse_switch
  rw [if_neg h]
  by_cases ht : o.ret = 't'
  · rw [if_pos ht]
    by_cases hu : p.cfg.proto = UDP
    · rw [if_pos hu]; rfl
    · rw [if_neg hu]
  · rw [if_neg ht]
    by_cases hp : o.ret = 'p'
    · rw [if_pos hp]
      cases sscanf_hu o.optarg <;> rfl
    · rw [if_neg hp]; rfl

/-- Options other than `i` leave the address alone. -/
theorem parse_loop_server_ip (L : Libc) :
    ∀ (rs : List Opt) (p : Proc), (∀ o ∈ rs, o.ret ≠ 'i') →
      (parse_loop L rs p).cfg.server_ip = p.cfg.server_ip
  | [], _, _ => rfl
  | o :: rest, p, h => by
    have ho := parse_switch_server_ip L o p (h o (List.mem_cons_self o rest))
    unfold parse_loop
    by_cases hst : (parse_switch L o p).status = .running
    · rw [if_pos hst,
        parse_loop_server_ip L rest _ (fun o' ho' => h o' (List.mem_cons_of_mem o ho')), ho]
    · rw [if_neg hst, ho]

/-- The option `i` with a value `inet_aton` rejects: the address becomes
`htonl(INADDR_ANY)` and nothing else changes. -/
theorem parse_switch_rejected_ip (L : Libc) (v : List Char) (p : Proc)
    (h : L.inet_aton v = none) :
    parse_switch L ⟨'i', v⟩ p =
      { p with cfg := { p.cfg with server_ip := L.htonl L.INADDR_ANY } } := by
  simp [parse_switch, h]

/-- The only return of `getopt_long` for `-i value` or `--ip value` is `i` with
that value, whatever the value is. -/
theorem getopt_long_ip (prog v : List Char) :
    getopt_long [prog, "-i".toList, v] = [⟨'i', v⟩] ∧
    getopt_long [prog, "--ip".toList, v] = [⟨'i', v⟩] := by
  constructor <;> rfl

/-! ## Endpoint creation -/

/-- C6, evaluated where the code departs from it: when `fcntl(sockfd, F_SETFL, ...)`
returns -1 the start-up is not fatal.  `start_server` never looks at what `fcntl`
returns, logs that the server started and leaves the process running, ready to
enter the service loop; the other four steps do end the process with the failure
status when they return -1. -/
theorem fcntl_failure_is_not_fatal :
    (main_start linux { sample_start with setfl_ret := -1 } sample_argv).status = .running ∧
    (main_start linux { sample_start with setfl_ret := -1 } sample_argv).trace =
      [ .sigaction 2, .sigaction 15, .socket 2 1 0, .setsockopt 3 1 2 1,
        .bind 3 { sin_family := 2, sin_port := 3328, sin_addr := 0x0100007f },
        .listen 3 256, .fcntl 3 3 0, .fcntl 3 4 (Int.lor 2 2048),
        .stdout "Server started, listening on %s:%d ...\n" ] ∧
    (∀ (L : Libc) (e : StartEnv) (r : Int) (p : Proc),
      start_server L { e with setfl_ret := r } p = start_server L e p) ∧
    (main_start linux { sample_start with socket_ret := -1 } sample_argv).status = .exited 1 ∧
    (main_start linux { sample_start with setsockopt_ret := -1 } sample_argv).status =
      .exited 1 ∧
    (main_start linux { sample_start with bind_ret := -1 } sample_argv).status = .exited 1 ∧
    (main_start linux { sample_start with listen_ret := -1 } sample_argv).status = .exited 1 :=
  ⟨by decide, rfl, fun _ _ _ _ => rfl, by decide, by decide, by decide, by decide⟩

/-- C7, evaluated where the code departs from it: for the command line without
any option `parse_arguments` never stores an address, so the address
`start_server` binds is what the fresh `malloc` block happened to hold, here
127.0.0.1 and not `htonl(INADDR_ANY)`. -/
theorem default_address_is_uninitialised :
    (∀ o ∈ getopt_long sample_argv, o.ret ≠ 'i') ∧
    sample_start.malloc = some sample_heap ∧
    sample_heap.server_ip = 0x0100007f ∧
    (parse_arguments linux sample_argv (Proc.init sample_heap)).status = .running ∧
    (parse_arguments linux sample_argv (Proc.init sample_heap)).cfg.server_ip = 0x0100007f ∧
    (main_start linux sample_start sample_argv).status = .running ∧
    (main_start linux sample_start sample_argv).cfg.server_addr.sin_addr = 0x0100007f ∧
    (main_start linux sample_start sample_argv).cfg.server_addr.sin_addr ≠
      linux.htonl linux.INADDR_ANY ∧
    Event.bind 3 { sin_family := 2, sin_port := 3328, sin_addr := 0x0100007f } ∈
      (main_start linux sample_start sample_argv).trace := by
  refine ⟨by decide, rfl, rfl, by decide, by decide, by decide, by decide, by decide, ?_⟩
  have h : (main_start linux sample_start sample_argv).trace =
      [ .sigaction 2, .sigaction 15, .socket 2 1 0, .setsockopt 3 1 2 1,
        .bind 3 { sin_family := 2, sin_port := 3328, sin_addr := 0x0100007f },
        .listen 3 256, .fcntl 3 3 0, .fcntl 3 4 (Int.lor 2 2048),
        .stdout "Server started, listening on %s:%d ...\n" ] := rfl
  rw [h]
  simp

/-- An option the `switch` accepts changes nothing but the configuration and
keeps the selector TCP. -/
theorem parse_switch_accepted (L : Libc) (o : Opt) (p : Proc) (hproto : p.cfg.proto = TCP)
    (hacc : o.ret = 'i' ∨ o.ret = 't' ∨ (o.ret = 'p' ∧ sscanf_hu o.optarg ≠ none)) :
    ∃ cfg, parse_switch L o p = { p with cfg := cfg } ∧ cfg.proto = TCP := by
  unfold parse_switch
  rcases hacc with hi | ht | ⟨hp, hs⟩
  · simp only [hi, if_true]
    cases L.inet_aton o.optarg with
    | none => exact ⟨_, rfl, hproto⟩
    | some a => exact ⟨_, rfl, hproto⟩
  · have hi : o.ret ≠ 'i' := by rw [ht]; decide
    have hu : p.cfg.proto ≠ UDP := by rw [hproto]; decide
    simp only [hi, ht, hu, if_false, if_true]
    exact ⟨_, rfl, rfl⟩
  · have hi : o.ret ≠ 'i' := by rw [hp]; decide
    have ht : o.ret ≠ 't' := by rw [hp]; decide
    simp only [hi, ht, hp, if_false, if_true]
    cases hv : sscanf_hu o.optarg with
    | none => exact absurd hv hs
    | some v => exact ⟨_, rfl, hproto⟩

/-- Over options the `switch` accepts the loop runs to its end and changes
nothing but the configuration. -/
theorem parse_loop_accepted (L : Libc) :
    ∀ (rs : List Opt) (p : Proc), p.cfg.proto = TCP →
      (∀ o ∈ rs, o.ret = 'i' ∨ o.ret = 't' ∨ (o.ret = 'p' ∧ sscanf_hu o.optarg ≠ none)) →
      ∃ cfg, parse_loop L rs p = { p with cfg := cfg } ∧ cfg.proto = TCP
  | [], p, hproto, _ => ⟨p.cfg, rfl, hproto⟩
  | o :: rest, p, hproto, h => by
    obtain ⟨cfg, hc, hp⟩ := parse_switch_accepted L o p hproto (h o (List.mem_cons_self o rest))
    unfold parse_loop
    by_cases hst : (parse_switch L o p).status = .running
    · rw [if_pos hst, hc]
      obtain ⟨cfg2, hc2, hp2⟩ := parse_loop_accepted L rest { p with cfg := cfg } hp
        (fun o' ho' => h o' (List.mem_cons_of_mem o ho'))
      exact ⟨cfg2, hc2, hp2⟩
    · rw [if_neg hst, hc]
      exact ⟨cfg, rfl, hp⟩

/-- C8: for every `-i`/`--ip` value that `inet_aton` rejects the `switch` does
not fail or print the usage text but stores `htonl(INADDR_ANY)` as the address.
On every command line whose last `-i` has such a value and whose other options
are accepted, `parse_arguments` returns with that address, and `start_server`
then binds the listening socket to the address any and the configured port.
The command lines `-i value` and `--ip value` are of this kind for every value. -/
theorem rejected_ip_binds_any (L : Libc) (v : List Char) (argv : List (List Char))
    (pre post : List Opt) (p : Proc) (e : StartEnv)
    (hrej : L.inet_aton v = none)
    (hargv : getopt_long argv = pre ++ ⟨'i', v⟩ :: post)
    (hlast : ∀ o ∈ post, o.ret ≠ 'i')
    (hothers : ∀ o ∈ pre ++ post,
      o.ret = 'i' ∨ o.ret = 't' ∨ (o.ret = 'p' ∧ sscanf_hu o.optarg ≠ none))
    (hrun : p.status = .running)
    (h1 : e.socket_ret ≠ -1) (h2 : e.setsockopt_ret ≠ -1) (h3 : e.bind_ret ≠ -1)
    (h4 : e.listen_ret ≠ -1) :
    parse_switch L ⟨'i', v⟩ p =
      { p with cfg := { p.cfg with server_ip := L.htonl L.INADDR_ANY } } ∧
    (parse_arguments L argv p).status = .running ∧
    (parse_arguments L argv p).trace = p.trace ∧
    (parse_arguments L argv p).cfg.server_ip = L.htonl L.INADDR_ANY ∧
    (start_server L e (parse_arguments L argv p)).status = .running ∧
    (start_server L e (parse_arguments L argv p)).since (parse_arguments L argv p) =
      [ .socket L.PF_INET L.SOCK_STREAM 0,
        .setsockopt e.socket_ret L.SOL_SOCKET L.SO_REUSEADDR 1,
        .bind e.socket_ret
          { sin_family := L.AF_INET,
            sin_port := L.htons (parse_arguments L argv p).cfg.port,
            sin_addr := L.htonl L.INADDR_ANY },
        .listen e.socket_ret BACKLOG,
        .fcntl e.socket_ret L.F_GETFL 0,
        .fcntl e.socket_ret L.F_SETFL (Int.lor e.getfl_ret L.O_NONBLOCK),
        .stdout "Server started, listening on %s:%d ...\n" ] ∧
    (∀ prog : List Char,
      getopt_long [prog, "-i".toList, v] = [⟨'i', v⟩] ∧
      getopt_long [prog, "--ip".toList, v] = [⟨'i', v⟩]) := by
  have hall : ∀ o ∈ getopt_long argv,
      o.ret = 'i' ∨ o.ret = 't' ∨ (o.ret = 'p' ∧ sscanf_hu o.optarg ≠ none) := by
    intro o ho
    rw [hargv] at ho
    rcases List.mem_append.1 ho with h | h
    · exact hothers o (List.mem_append_left _ h)
    · rcases List.mem_cons.1 h with h | h
      · left; rw [h]
      · exact hothers o (List.mem_append_right _ h)
  obtain ⟨cfg, hc, hp⟩ := parse_loop_accepted L (getopt_long argv)
    { p with cfg := { p.cfg with port := PORT, proto := TCP } } rfl hall
  have hpa : parse_arguments L argv p = { p with cfg := cfg } := hc
  have hst : (parse_arguments L argv p).status = .running := by rw [hpa]; exact hrun
  have key : ∀ p0 : Proc, p0.status = .running → p0.cfg.proto = TCP →
      (parse_loop L (pre ++ ⟨'i', v⟩ :: post) p0).cfg.server_ip = L.htonl L.INADDR_ANY := by
    intro p0 hrun0 hproto0
    obtain ⟨cfg1, hc1, _⟩ := parse_loop_accepted L pre p0 hproto0
      (fun o ho => hothers o (List.mem_append_left _ ho))
    have hst1 : (parse_loop L pre p0).status = .running := by rw [hc1]; exact hrun0
    rw [parse_loop_append L pre _ p0 hrun0, if_pos hst1]
    generalize parse_loop L pre p0 = p1 at hst1 ⊢
    rw [parse_loop_cons, parse_switch_rejected_ip L v p1 hrej, if_pos hst1,
      parse_loop_server_ip L post _ hlast]
  have hip : (parse_arguments L argv p).cfg.server_ip = L.htonl L.INADDR_ANY := by
    unfold parse_arguments
    simp only [hargv]
    exact key _ hrun rfl
  refine ⟨parse_switch_rejected_ip L v p hrej, hst, by rw [hpa], hip, ?_, ?_,
    fun prog => getopt_long_ip prog v⟩
  · rw [start_server_ok L e _ (parse_arguments_proto L argv p) hst h1 h2 h3 h4]
    exact hst
  · apply since_append
    rw [start_server_ok L e _ (parse_arguments_proto L argv p) hst h1 h2 h3 h4, hip]

/-- The command line `daytime -p 8013 -i nonsense -t`: the address is any and
the socket is bound to port 8013. -/
theorem rejected_ip_binds_any_witness :
    linux.inet_aton "nonsense".toList = none ∧
    getopt_long ["daytime".toList, "-p".toList, "8013".toList, "-i".toList, "nonsense".toList,
        "-t".toList] =
      [⟨'p', "8013".toList⟩] ++ ⟨'i', "nonsense".toList⟩ :: [⟨'t', []⟩] ∧
    (parse_arguments linux
      ["daytime".toList, "-p".toList, "8013".toList, "-i".toList, "nonsense".toList,
        "-t".toList] (Proc.init sample_heap)).cfg.server_ip = 0 ∧
    (parse_arguments linux
      ["daytime".toList, "-p".toList, "8013".toList, "-i".toList, "nonsense".toList,
        "-t".toList] (Proc.init sample_heap)).cfg.port = 8013 :=
  ⟨by decide, by decide,
   (rejected_ip_binds_any linux "nonsense".toList
      ["daytime".toList, "-p".toList, "8013".toList, "-i".toList, "nonsense".toList,
        "-t".toList]
      [⟨'p', "8013".toList⟩] [⟨'t', []⟩] (Proc.init sample_heap) sample_start
      (by decide) (by decide) (by decide) (by decide) (by decide) (by decide) (by decide)
      (by decide) (by decide)).2.2.2.1,
   by decide⟩

/-! ## Refused command lines -/

/-- The state after `set_signal_handler` when both calls of `sigaction` succeed. -/
theorem set_signal_handler_ok (L : Libc) (e : StartEnv) (p : Proc)
    (h1 : e.sigaction_int ≠ -1) (h2 : e.sigaction_term ≠ -1) :
    set_signal_handler L e p =
      { p with on_sigint := true, on_sigterm := true,
               trace := p.trace ++ [.sigaction L.SIGINT, .sigaction L.SIGTERM] } := by
  simp [set_signal_handler, h1, h2, Proc.emit]

/-- C9, as stated, fails: the port value `80abc` has characters after its
digits, yet `parse_arguments` prints nothing and returns with port 80, and the
server is started on that port.  A malformed `-i` value leads to no usage text
either. -/
theorem malformed_values_are_accepted :
    getopt_long ["daytime".toList, "-p".toList, "80abc".toList] = [⟨'p', "80abc".toList⟩] ∧
    sscanf_hu "80abc".toList = some 80 ∧
    (parse_arguments linux ["daytime".toList, "-p".toList, "80abc".toList]
      (Proc.init sample_heap)).status = .running ∧
    (parse_arguments linux ["daytime".toList, "-p".toList, "80abc".toList]
      (Proc.init sample_heap)).trace = [] ∧
    (parse_arguments linux ["daytime".toList, "-p".toList, "80abc".toList]
      (Proc.init sample_heap)).cfg.port = 80 ∧
    (main_start linux sample_start ["daytime".toList, "-p".toList, "80abc".toList]).status =
      .running ∧
    (main_start linux sample_start ["daytime".toList, "-p".toList, "80abc".toList]).cfg.sockfd =
      3 ∧
    linux.inet_aton "nonsense".toList = none ∧
    (parse_arguments linux ["daytime".toList, "-i".toList, "nonsense".toList]
      (Proc.init sample_heap)).status = .running ∧
    (parse_arguments linux ["daytime".toList, "-i".toList, "nonsense".toList]
      (Proc.init sample_heap)).trace = [] := by
  decide

/-- C9, amended: for every command line, if `getopt_long` reports an option
that is none of `i`, `t` and `p` (its `?` for an unrecognized flag or a missing
argument, and also `h` and `u`), or a `-p`/`--port` value from which `sscanf`
converts no number, then `parse_arguments` prints the usage text and the process
exits with success status without starting the server: after the two `sigaction`
calls the usage text is all the process does.  A flag letter outside the option
string is reported as `?`. -/
theorem refused_option_prints_usage (L : Libc) (w : World) (argv : List (List Char))
    (heap : srvcfg) (o : Opt)
    (hmalloc : w.start.malloc = some heap)
    (hs1 : w.start.sigaction_int ≠ -1) (hs2 : w.start.sigaction_term ≠ -1)
    (ho : o ∈ getopt_long argv)
    (hbad : (o.ret ≠ 'i' ∧ o.ret ≠ 't' ∧ o.ret ≠ 'p') ∨
      (o.ret = 'p' ∧ sscanf_hu o.optarg = none)) :
    (main L w argv).status = .exited L.EXIT_SUCCESS ∧
    (main L w argv).trace = [.sigaction L.SIGINT, .sigaction L.SIGTERM, .stdout usage_text] ∧
    (∀ (prog : List Char) (c : Char), c ≠ '-' → lookup_short c optstring = none →
      getopt_long [prog, ['-', c]] = [⟨'?', []⟩]) := by
  have hp : (set_signal_handler L w.start (Proc.init heap)).status = .running := by
    rw [set_signal_handler_ok L _ _ hs1 hs2]
    rfl
  obtain ⟨hst, htr, _⟩ := parse_arguments_usage L argv _ hp ⟨o, ho, hbad⟩
  have hms : main_start L w.start argv =
      parse_arguments L argv (set_signal_handler L w.start (Proc.init heap)) := by
    simp [main_start, hmalloc, hp, hst]
  have hmain : main L w argv = main_start L w.start argv := by
    simp [main, hms, hst]
  refine ⟨?_, ?_, ?_⟩
  · rw [hmain, hms, hst]
  · rw [hmain, hms, htr, set_signal_handler_ok L _ _ hs1 hs2]
    simp [Proc.init]
  · intro prog c hc hnone
    simp [getopt_long, getopt_scan, short_opts, hnone, hc]

/-- The command lines `daytime -x` and `daytime --port abc` end in the usage
text and exit status 0. -/
theorem refused_option_prints_usage_witness :
    (⟨'?', []⟩ : Opt) ∈ getopt_long ["daytime".toList, "-x".toList] ∧
    (main linux ⟨sample_start, [.pass sample_served], 0⟩
      ["daytime".toList, "-x".toList]).status = .exited 0 ∧
    (⟨'p', "abc".toList⟩ : Opt) ∈ getopt_long ["daytime".toList, "--port".toList, "abc".toList] ∧
    sscanf_hu "abc".toList = none ∧
    (main linux ⟨sample_start, [.pass sample_served], 0⟩
      ["daytime".toList, "--port".toList, "abc".toList]).trace =
      [.sigaction 2, .sigaction 15, .stdout usage_text] ∧
    getopt_long ["daytime".toList, ['-', 'x']] = [⟨'?', []⟩] :=
  ⟨by decide,
   (refused_option_prints_usage linux ⟨sample_start, [.pass sample_served], 0⟩
      ["daytime".toList, "-x".toList] sample_heap ⟨'?', []⟩ rfl (by decide) (by decide)
      (by decide) (by decide)).1,
   by decide, by decide,
   (refused_option_prints_usage linux ⟨sample_start, [.pass sample_served], 0⟩
      ["daytime".toList, "--port".toList, "abc".toList] sample_heap ⟨'p', "abc".toList⟩ rfl
      (by decide) (by decide) (by decide) (by decide)).2.1,
   (refused_option_prints_usage linux ⟨sample_start, [.pass sample_served], 0⟩
      ["daytime".toList, "-x".toList] sample_heap ⟨'?', []⟩ rfl (by decide) (by decide)
      (by decide) (by decide)).2.2 "daytime".toList 'x' (by decide) (by decide)⟩

/-! ## The datagram selector -/

/-- C10, as stated, fails: there is no command line for which `parse_arguments`
returns with the protocol selector set to UDP. -/
theorem no_command_line_selects_udp :
    ¬ ∃ (L : Libc) (argv : List (List Char)) (p : Proc),
      (parse_arguments L argv p).status = .running ∧
      (parse_arguments L argv p).cfg.proto = UDP := by
  rintro ⟨L, argv, p, _, h⟩
  rw [parse_arguments_proto L argv p] at h
  exact absurd h (by decide)

/-- C10, amended: the datagram transport cannot be configured and is not wired
into socket creation.  After `parse_arguments` the protocol selector is TCP for
every command line; the letter `u` of the option string is reported by
`getopt_long` but ends in the usage text.  For every configuration whose
selector is the datagram kind `start_server` creates no socket at all: it makes
no system call, and `cfg->sockfd` keeps the value it had. -/
theorem udp_is_not_wired (L : Libc) (argv : List (List Char)) (p q : Proc) (e : StartEnv)
    (hrun : p.status = .running) (hudp : q.cfg.proto = UDP) :
    (parse_arguments L argv p).cfg.proto = TCP ∧
    getopt_long ["daytime".toList, "-u".toList] = [⟨'u', []⟩] ∧
    (parse_arguments L ["daytime".toList, "-u".toList] p).status = .exited L.EXIT_SUCCESS ∧
    (parse_arguments L ["daytime".toList, "-u".toList] p).since p = [.stdout usage_text] ∧
    (start_server L e q).since q = [.stdout "Server started, listening on %s:%d ...\n"] ∧
    (start_server L e q).cfg.sockfd = q.cfg.sockfd ∧
    (start_server L e q).status = q.status := by
  have hne : q.cfg.proto ≠ TCP := by rw [hudp]; decide
  have hu : getopt_long ["daytime".toList, "-u".toList] = [⟨'u', []⟩] := by decide
  obtain ⟨hst, htr, _⟩ := parse_arguments_usage L ["daytime".toList, "-u".toList] p hrun
    ⟨⟨'u', []⟩, by rw [hu]; exact List.mem_singleton.2 rfl, Or.inl (by decide)⟩
  refine ⟨parse_arguments_proto L argv p, hu, ?_, ?_, ?_, ?_, ?_⟩
  · exact hst
  · exact since_append _ _ _ htr
  · apply since_append
    rw [start_server_other L e q hne]
  · rw [start_server_other L e q hne]
  · rw [start_server_other L e q hne]

/-- A configuration with the selector UDP, which no command line produces: the
start makes no system call and leaves the descriptor -3 of the fresh block. -/
theorem udp_is_not_wired_witness :
    (Proc.init sample_heap).status = .running ∧
    ({ Proc.init sample_heap with cfg := { sample_heap with proto := UDP } } : Proc).cfg.proto =
      UDP ∧
    (start_server linux sample_start
      { Proc.init sample_heap with cfg := { sample_heap with proto := UDP } }).cfg.sockfd = -3 ∧
    (parse_arguments linux ["daytime".toList, "-t".toList] (Proc.init sample_heap)).cfg.proto =
      TCP :=
  ⟨by decide, by decide,
   (udp_is_not_wired linux ["daytime".toList, "-t".toList] (Proc.init sample_heap)
      { Proc.init sample_heap with cfg := { sample_heap with proto := UDP } } sample_start
      (by decide) (by decide)).2.2.2.2.2.1,
   (udp_is_not_wired linux ["daytime".toList, "-t".toList] (Proc.init sample_heap)
      { Proc.init sample_heap with cfg := { sample_heap with proto := UDP } } sample_start
      (by decide) (by decide)).1⟩

/-! ## Shutdown -/

theorem ERROR_active (L : Libc) (func str : String) (p : Proc) :
    (ERROR L func str p).active = p.active ∨ (ERROR L func str p).active = 0 := by
  by_cases h : p.on_sigterm = true <;> simp [ERROR, exiting, Proc.emit, h]

theorem arrive_active (L : Libc) (e : IterEnv) (p : Proc) :
    (e.arrive L p).active = p.active ∨ (e.arrive L p).active = 0 := by
  by_cases h : e.signalled = true <;> simp [IterEnv.arrive, exiting, h]

/-- The body of the loop leaves `active` alone or sets it to 0. -/
theorem main_body_active (L : Libc) (e : IterEnv) (p : Proc) :
    (main_body L e p).active = p.active ∨ (main_body L e p).active = 0 := by
  have ha := arrive_active L e p
  by_cases hacc : e.accept_ret = -1
  · by_cases herr : e.accept_errno ≠ L.EWOULDBLOCK ∧ e.accept_errno ≠ L.EAGAIN
    · rw [main_body_accept_fatal L e p ⟨hacc, herr⟩]
      rcases ERROR_active L "main" "Error incoming connection"
        ((e.arrive L p).emit (.accept p.cfg.sockfd)) with h | h
      · rw [h]; exact ha
      · exact Or.inr h
    · have h2 : e.accept_errno = L.EWOULDBLOCK ∨ e.accept_errno = L.EAGAIN := by
        by_contra hcon
        exact herr ⟨fun h => hcon (Or.inl h), fun h => hcon (Or.inr h)⟩
      rw [main_body_would_block L e p hacc h2]
      exact ha
  · by_cases hw : e.write_ret = -1
    · rw [main_body_write_fatal L e p hacc hw]
      rcases ERROR_active L "main" "Error sending datetime"
        { e.arrive L p with
          trace := p.trace ++
            [ .accept p.cfg.sockfd,
              .stdout "Successful incoming connection from %s:%d.\n",
              .time,
              .write e.accept_ret (datetime_message L e.now) ] } with h | h
      · rw [h]; exact ha
      · exact Or.inr h
    · rw [main_body_written L e p hacc hw]
      by_cases hc : e.close_ret = -1
      · rw [if_pos hc]
        rcases ERROR_active L "main" "Error on closing socket"
          { e.arrive L p with
            trace := p.trace ++
              [ .accept p.cfg.sockfd,
                .stdout "Successful incoming connection from %s:%d.\n",
                .time,
                .write e.accept_ret (datetime_message L e.now),
                .stdout "Successfully sent datetime to %s:%d.\n",
                .close e.accept_ret ] } with h | h
        · rw [h]; exact ha
        · exact Or.inr h
      · rw [if_neg hc]
        exact ha

/-- Once the loop condition is found false the loop is left at once, whatever
the inputs still to come. -/
theorem main_loop_inactive (L : Libc) (inputs : List Input) (p : Proc) (h : p.active = 0) :
    main_loop L inputs p = .left p := by
  cases inputs with
  | nil => simp [main_loop, h]
  | cons i rest => cases i <;> simp [main_loop, h]

/-- Along the loop `active` keeps its value or becomes 0. -/
theorem main_loop_active (L : Libc) :
    ∀ (inputs : List Input) (p : Proc),
      (main_loop L inputs p).proc.active = p.active ∨ (main_loop L inputs p).proc.active = 0
  | [], p => by
    by_cases h : p.active = 0 <;> simp [main_loop, h, Loop.proc]
  | .signal sig :: rest, p => by
    by_cases h : p.active = 0
    · rw [main_loop_inactive L _ p h]; exact Or.inl rfl
    · have ih := main_loop_active L rest (exiting sig p)
      simp only [main_loop, ne_eq, h, not_false_eq_true, if_true]
      rcases ih with ih | ih
      · exact Or.inr (by rw [ih]; rfl)
      · exact Or.inr ih
  | .pass e :: rest, p => by
    by_cases h : p.active = 0
    · rw [main_loop_inactive L _ p h]; exact Or.inl rfl
    · rw [main_loop_pass L e rest p h]
      by_cases hst : (main_body L e p).status = .running
      · rw [if_pos hst]
        rcases main_loop_active L rest (main_body L e p) with ih | ih
        · rw [ih]; exact main_body_active L e p
        · exact Or.inr ih
      · rw [if_neg hst]
        exact main_body_active L e p

/-- The end of `main` once the loop is left. -/
theorem main_exit_since (L : Libc) (c : Int) (p : Proc) (hrun : p.status = .running) :
    (main_exit L c p).since p =
      .close p.cfg.sockfd ::
        (if c = -1 then [.stderr "destroy_server" "Error closing socket", .kill 0 L.SIGTERM]
         else [.free]) := by
  apply since_append
  unfold main_exit destroy_server
  by_cases hc : c = -1
  · simp only [if_pos hc]
    rw [if_neg (ERROR_not_running _ _ _ _), ERROR_trace]
    simp [Proc.emit]
  · simp [hc, Proc.emit, hrun]

theorem main_exit_status (L : Libc) (c : Int) (p : Proc) (hrun : p.status = .running)
    (hterm : p.on_sigterm = true) :
    (main_exit L c p).status =
      if c = -1 then .exited L.EXIT_FAILURE else .exited L.EXIT_SUCCESS := by
  unfold main_exit destroy_server
  by_cases hc : c = -1
  · simp only [if_pos hc]
    rw [if_neg (ERROR_not_running _ _ _ _)]
    exact ERROR_status _ _ _ _ (by simpa [Proc.emit] using hterm)
  · simp [hc, Proc.emit, hrun]

/-- A `create_socket` that leaves the process running has changed nothing but
the trace. -/
theorem create_socket_running (L : Libc) (e : StartEnv) (type : Int) (addr : sockaddr_in)
    (p : Proc) (h : (create_socket L e type addr p).2.status = .running) :
    (create_socket L e type addr p).2.active = p.active ∧
    (create_socket L e type addr p).2.cfg = p.cfg := by
  unfold create_socket at h ⊢
  by_cases h1 : e.socket_ret = -1
  · simp only [h1, if_true] at h
    exact absurd h (ERROR_not_running _ _ _ _)
  · by_cases h2 : e.setsockopt_ret = -1
    · simp only [h1, h2, if_true, if_false] at h
      exact absurd h (ERROR_not_running _ _ _ _)
    · by_cases h3 : e.bind_ret = -1
      · simp only [h1, h2, h3, if_true, if_false] at h
        exact absurd h (ERROR_not_running _ _ _ _)
      · by_cases ht : type = L.SOCK_STREAM
        · by_cases h4 : e.listen_ret = -1
          · simp only [h1, h2, h3, h4, ht, if_true, if_false] at h
            exact absurd h (ERROR_not_running _ _ _ _)
          · simp [h1, h2, h3, h4, ht, Proc.emit]
        · simp [h1, h2, h3, ht, Proc.emit]

/-- A `start_server` that leaves the process running has left `active` alone. -/
theorem start_server_active (L : Libc) (e : StartEnv) (p : Proc)
    (h : (start_server L e p).status = .running) : (start_server L e p).active = p.active := by
  unfold start_server at h ⊢
  dsimp only at h ⊢
  split at h
  · rename_i hproto
    split at h
    · rename_i hst
      rw [if_pos hproto, if_pos hst]
      exact (create_socket_running L e _ _ _ hst).1
    · rename_i hst
      exact absurd h hst
  · rename_i hproto
    rw [if_neg hproto]
    rfl

/-- The option loop leaves `active` alone. -/
theorem parse_loop_active (L : Libc) :
    ∀ (rs : List Opt) (p : Proc), (parse_loop L rs p).active = p.active
  | [], _ => rfl
  | o :: rest, p => by
    have hsw : (parse_switch L o p).active = p.active := by
      rcases parse_switch_cases L o p with hu | ⟨cfg, hc, _⟩
      · rw [hu]; rfl
      · rw [hc]
    rw [parse_loop_cons]
    by_cases hst : (parse_switch L o p).status = .running
    · rw [if_pos hst, parse_loop_active L rest _, hsw]
    · rw [if_neg hst, hsw]

/-- When the start succeeds the loop is entered with the flag 1 and with
`exiting` installed for SIGTERM. -/
theorem main_start_running (L : Libc) (e : StartEnv) (argv : List (List Char))
    (h : (main_start L e argv).status = .running) :
    (main_start L e argv).active = 1 := by
  unfold main_start at h ⊢
  cases hm : e.malloc with
  | none =>
    simp only [hm] at h
    exact absurd h (ERROR_not_running _ _ _ _)
  | some heap =>
    simp only [hm] at h ⊢
    by_cases hs : (set_signal_handler L e (Proc.init heap)).status = .running
    · simp only [hs, if_true] at h ⊢
      have hsa : (set_signal_handler L e (Proc.init heap)).active = 1 := by
        unfold set_signal_handler at hs ⊢
        by_cases h1 : e.sigaction_int = -1
        · simp only [h1, if_true] at hs
          exact absurd hs (ERROR_not_running _ _ _ _)
        · by_cases h2 : e.sigaction_term = -1
          · simp only [h1, h2, if_true, if_false] at hs
            exact absurd hs (ERROR_not_running _ _ _ _)
          · simp [h1, h2, Proc.emit, Proc.init]
      have hpa : (parse_arguments L argv (set_signal_handler L e (Proc.init heap))).active = 1 := by
        unfold parse_arguments
        rw [parse_loop_active]
        exact hsa
      by_cases hp : (parse_arguments L argv
          (set_signal_handler L e (Proc.init heap))).status = .running
      · simp only [hp, if_true] at h ⊢
        rw [start_server_active L e _ h]
        exact hpa
      · simp only [hp, if_false] at h
    · simp only [hs, if_false] at h

/-- C5, as stated, fails: the program is started without options, every call of
the start succeeds, and SIGTERM arrives before the first pass.  The loop
condition is found false, no `accept` is made and `destroy_server` closes
descriptor 3 once; that `close` returns -1, and the process exits with the
failure status, not with the success status. -/
theorem shutdown_with_failed_close_exits_with_failure :
    main_loop linux [.signal 15] sample_listening =
      .left { sample_listening with active := 0 } ∧
    (main_finish linux (-1) (main_loop linux [.signal 15] sample_listening)).trace =
      [ .close 3, .stderr "destroy_server" "Error closing socket", .kill 0 15 ] ∧
    (main linux { start := sample_start, inputs := [.signal 15], last_close := -1 }
      sample_argv).trace =
      [ .sigaction 2, .sigaction 15, .socket 2 1 0, .setsockopt 3 1 2 1,
        .bind 3 { sin_family := 2, sin_port := 3328, sin_addr := 0x0100007f },
        .listen 3 256, .fcntl 3 3 0, .fcntl 3 4 (Int.lor 2 2048),
        .stdout "Server started, listening on %s:%d ...\n",
        .close 3, .stderr "destroy_server" "Error closing socket", .kill 0 15 ] ∧
    (main linux { start := sample_start, inputs := [.signal 15], last_close := -1 }
      sample_argv).status = .exited linux.EXIT_FAILURE ∧
    (main linux { start := sample_start, inputs := [.signal 15], last_close := -1 }
      sample_argv).status ≠ .exited linux.EXIT_SUCCESS :=
  ⟨by decide, by decide, rfl, by decide, by decide⟩

/-- C5, amended: the flag starts as 1, is still 1 when the start succeeds and
the loop is entered, and the handler `exiting` sets it to 0; along the loop it
keeps its value or becomes 0, so it never reverts.  Once the
loop condition finds it 0 the loop is left whatever is still to come, no further
`accept` is made, `destroy_server` closes the listening descriptor exactly once,
and the process exits with success status if that `close` succeeds and with
failure status if it returns -1.  The flag is tested only between passes: when
the signal arrives during a pass in which a client was accepted, that client is
written to and closed before the loop is left. -/
theorem shutdown_invariant (L : Libc) (p : Proc) (inputs rest : List Input) (c : Int)
    (e : IterEnv) (hrun : p.status = .running) (hterm : p.on_sigterm = true) :
    (∀ heap, (Proc.init heap).active = 1) ∧
    (∀ env argv, (main_start L env argv).status = .running →
      (main_start L env argv).active = 1) ∧
    (∀ sig q, (exiting sig q).active = 0) ∧
    (∀ ins q, (main_loop L ins q).proc.active = q.active ∨
      (main_loop L ins q).proc.active = 0) ∧
    (p.active = 0 →
      main_loop L inputs p = .left p ∧
      (main_finish L c (main_loop L inputs p)).since p =
        .close p.cfg.sockfd ::
          (if c = -1 then [.stderr "destroy_server" "Error closing socket", .kill 0 L.SIGTERM]
           else [.free]) ∧
      (main_finish L c (main_loop L inputs p)).status =
        (if c = -1 then .exited L.EXIT_FAILURE else .exited L.EXIT_SUCCESS)) ∧
    (p.active ≠ 0 → e.signalled = true → e.accept_ret ≠ -1 → e.write_ret ≠ -1 →
      e.close_ret ≠ -1 →
      main_loop L (.pass e :: rest) p = .left (main_body L e p) ∧
      (main_body L e p).active = 0 ∧
      (main_body L e p).since p =
        [ .accept p.cfg.sockfd,
          .stdout "Successful incoming connection from %s:%d.\n",
          .time,
          .write e.accept_ret (datetime_message L e.now),
          .stdout "Successfully sent datetime to %s:%d.\n",
          .close e.accept_ret,
          .stdout "Successfully closing connection from %s:%d.\n" ]) := by
  refine ⟨fun _ => rfl, main_start_running L, fun _ _ => rfl, main_loop_active L, ?_, ?_⟩
  · intro h0
    rw [main_loop_inactive L inputs p h0]
    exact ⟨rfl, main_exit_since L c p hrun, main_exit_status L c p hrun hterm⟩
  · intro hact hsig hacc hw hc
    have hb := main_body_served L e p hacc hw hc
    have harr : e.arrive L p = exiting L.SIGTERM p := by simp [IterEnv.arrive, hsig]
    have hst : (main_body L e p).status = .running := by
      rw [hb, harr]; exact hrun
    have h0 : (main_body L e p).active = 0 := by
      rw [hb, harr]; rfl
    refine ⟨?_, h0, ?_⟩
    · rw [main_loop_pass L e rest p hact, if_pos hst]
      exact main_loop_inactive L rest _ h0
    · apply since_append
      rw [hb]
      rfl

/-- The sample process after SIGTERM: one `close` of descriptor 3, `free`, and
exit status 0; and a client accepted while the signal arrives is served first. -/
theorem shutdown_invariant_witness :
    sample_listening.status = .running ∧ sample_listening.on_sigterm = true ∧
    (exiting 15 sample_listening).active = 0 ∧
    (main_finish linux 0 (main_loop linux [.pass sample_served] (exiting 15 sample_listening))).since
        (exiting 15 sample_listening) = [.close 3, .free] ∧
    (main_finish linux 0 (main_loop linux [.pass sample_served]
        (exiting 15 sample_listening))).status = .exited 0 ∧
    sample_listening.active ≠ 0 ∧
    main_loop linux [.pass { sample_served with signalled := true }, .pass sample_served]
        sample_listening =
      .left (main_body linux { sample_served with signalled := true } sample_listening) ∧
    (main_start linux sample_start sample_argv).status = .running ∧
    (main_start linux sample_start sample_argv).active = 1 :=
  ⟨by decide, by decide, by decide,
   ((shutdown_invariant linux (exiting 15 sample_listening) [.pass sample_served] [] 0
      sample_served (by decide) (by decide)).2.2.2.2.1 (by decide)).2.1,
   ((shutdown_invariant linux (exiting 15 sample_listening) [.pass sample_served] [] 0
      sample_served (by decide) (by decide)).2.2.2.2.1 (by decide)).2.2,
   by decide,
   ((shutdown_invariant linux sample_listening [] [.pass sample_served] 0
      { sample_served with signalled := true } (by decide) (by decide)).2.2.2.2.2
      (by decide) (by decide) (by decide) (by decide) (by decide)).1,
   by decide,
   (shutdown_invariant linux sample_listening [] [] 0 sample_served (by decide)
      (by decide)).2.1 sample_start sample_argv (by decide)⟩

end Daytime
